import Mathlib

/-!
# Verification of the Ozon scraping client (two session-policy variants)

This development gives a shallow embedding of the two client variants of the
repository:

* `OzonB` embeds `src/ozon-client.js` — the *fresh-session-per-operation*
  policy ("policy B"): every operation spawns a fresh browser, performs a
  single navigation, and closes the browser on every exit path.
* `OzonA` embeds the second client file (the long-lived-session variant,
  "policy A"): one persistent browser, a homepage warm-up refreshed when
  older than a freshness window, and a single in-operation recovery retry
  after a detected block.

Modelling conventions:

* Browser automation effects are explicit.  A `Nav` record is the oracle for
  one navigation: whether `page.goto` succeeded within its timeout, the page
  title afterwards, the final URL, and the DOM contents relevant to
  extraction.  The OS-level browser process count held by a controller is
  carried in the state (`alive`), so resource-leak properties are statements
  about the model.
* `browser.close()` (Playwright) is modelled as an infallible release of the
  process; variant B's defensive `try/catch` around it is therefore a no-op
  in the model.
* Pure timed waits (`waitForTimeout`) have no observable effect except the
  per-item pacing delay of `getProductsList`, which is counted because the
  specification claims it exists; variant B's loop contains no such wait and
  hence never increments the counter.
* The in-page `page.evaluate` that scrapes a *product details* page is a
  site-markup-dependent extraction which the specification itself puts out of
  scope; its result is supplied by the oracle as a `PData` record.  The
  *search results* extraction loop and the category loop, which the claims do
  quantify over, are embedded in full (per-record `try/catch`, seen-set
  deduplication, result limit, price/name/rating parsing).
* JavaScript regexes used by the embedded code are implemented as character
  scanners with JS leftmost-match semantics (`matchDashNum` for `-(\d+)`,
  `matchIdPatB` for `-(\d+)(?:\?|\/|$)`, `matchIdPatA` for
  `\/product\/[^\/]+-(\d+)`, number-token and rating scanners).
-/

/-! ## String and scanner helpers (JS regex / string semantics) -/

/-- JS `\s` whitespace for the characters that occur in scraped text:
space, tab, newline, carriage return and the no-break space used by
`toLocaleString('ru-RU')` digit grouping. -/
def jsSpace (c : Char) : Bool :=
  c = ' ' || c = '\t' || c = '\n' || c = '\r' || c = ' '

/-- Does `pat` occur as a contiguous run inside `cs`? -/
def listInfixOf (pat : List Char) : List Char → Bool
  | [] => pat.isEmpty
  | c :: rest => pat.isPrefixOf (c :: rest) || listInfixOf pat rest

/-- Substring test (JS `String.prototype.includes`). -/
def strContains (s pat : String) : Bool :=
  listInfixOf pat.toList s.toList

/-- Numeric value of a list of decimal digit characters (JS `parseInt` on a
string of digits). -/
def digitsVal (ds : List Char) : Nat :=
  ds.foldl (fun a c => a * 10 + (c.toNat - '0'.toNat)) 0

/-- Maximal run of `[\d\s]` characters (the `[\d\s]*` tail of the price
token regex `(\d[\d\s]*)`). -/
def numTokTail (cs : List Char) : List Char :=
  cs.takeWhile (fun c => c.isDigit || jsSpace c)

/-- JS `line.match(/(\d[\d\s]*)/)` followed by
`parseInt(m[1].replace(/\s/g, ''))`: first digit of the string starts a
maximal digit/whitespace token; its digits are concatenated and parsed. -/
def matchNumTok : List Char → Option Nat
  | [] => none
  | c :: rest =>
    if c.isDigit then
      some (digitsVal ((c :: numTokTail rest).filter Char.isDigit))
    else matchNumTok rest

/-- JS `url.match` with pattern `-(\d+)`: capture is the digit run after the
leftmost `-` that is followed by at least one digit. -/
def matchDashNum : List Char → Option String
  | [] => none
  | '-' :: rest =>
    let ds := rest.takeWhile Char.isDigit
    if ds.isEmpty then matchDashNum rest else some (String.mk ds)
  | _ :: rest => matchDashNum rest

/-- `matchDashNum` on a `String`. -/
def matchDashNumStr (s : String) : Option String :=
  matchDashNum s.toList

/-- JS `href.match` with pattern `-(\d+)(?:\?|\/|$)` (variant B product-id
pattern): capture is the leftmost `-` followed by a digit run that is itself followed by
`?`, `/` or the end of the string.  Backtracking inside the digit run cannot
help (a shorter run is followed by a digit), so the scan is exact. -/
def matchIdPatB : List Char → Option String
  | [] => none
  | '-' :: rest =>
    let ds := rest.takeWhile Char.isDigit
    let rem := rest.drop ds.length
    if !ds.isEmpty && (rem.head? = none || rem.head? = some '?' || rem.head? = some '/')
    then some (String.mk ds)
    else matchIdPatB rest
  | _ :: rest => matchIdPatB rest

/-- Rightmost `-` in the list that is followed by at least one digit; returns
that digit run.  Used for the backtracking behaviour of `[^\/]+-(\d+)`:
the greedy `[^\/]+` yields back characters from the right, so the rightmost
viable `-` wins. -/
def lastDashNum : List Char → Option (List Char)
  | [] => none
  | '-' :: rest =>
    (match lastDashNum rest with
     | some r => some r
     | none =>
       let ds := rest.takeWhile Char.isDigit
       if ds.isEmpty then none else some ds)
  | _ :: rest => lastDashNum rest

/-- JS `href.match(/\/product\/[^\/]+-(\d+)/)` capture (variant A product-id
pattern): after the leftmost viable occurrence of `/product/`, the segment up
to the next `/` must contain a `-` (not at its first position, since
`[^\/]+` needs at least one character) followed by digits; greedy
backtracking picks the rightmost such `-`. -/
def matchIdPatA : List Char → Option String
  | [] => none
  | c :: rest =>
    if "/product/".toList.isPrefixOf (c :: rest) then
      let seg := ((c :: rest).drop 9).takeWhile (fun x => x ≠ '/')
      match seg with
      | [] => matchIdPatA rest
      | _ :: segRest =>
        match lastDashNum segRest with
        | some ds => some (String.mk ds)
        | none => matchIdPatA rest
    else matchIdPatA rest

/-- JS `/^\d+%?$/`: one or more digits followed by an optional percent sign,
spanning the whole string. -/
def digitsPercentOpt (cs : List Char) : Bool :=
  let ds := cs.takeWhile Char.isDigit
  !ds.isEmpty && (cs.drop ds.length = [] || cs.drop ds.length = ['%'])

/-- JS `/^-?\d+%?$/` (variant B name-badge filter). -/
def isBadgeB (t : String) : Bool :=
  match t.toList with
  | '-' :: rest => digitsPercentOpt rest
  | cs => digitsPercentOpt cs

/-- JS `/^-\d+%$/` (variant A discount-badge filter). -/
def isNegPercentBadge (t : String) : Bool :=
  match t.toList with
  | '-' :: rest =>
    let ds := rest.takeWhile Char.isDigit
    !ds.isEmpty && rest.drop ds.length = ['%']
  | _ => false

/-- Digit value of a digit character. -/
def charVal (c : Char) : Nat := c.toNat - '0'.toNat

/-- JS `text.match(/(\d[,\.]\d)\s*[stars]/)` (rating followed by a star
glyph): first position with digit, `,` or `.`, digit, then optional
whitespace and one of the accepted star characters.  The captured rating
`d₁[,.​]d₂` is returned as the digit pair `(d₁, d₂)` (what
`parseFloat(m.replace(',', '.'))` denotes exactly). -/
def ratingScan (stars : List Char) : List Char → Option (Nat × Nat)
  | [] => none
  | c :: rest =>
    if c.isDigit then
      match rest with
      | s :: d2 :: rest2 =>
        if (s = ',' || s = '.') && d2.isDigit &&
           (match rest2.dropWhile jsSpace with
            | star :: _ => stars.contains star
            | [] => false)
        then some (charVal c, charVal d2)
        else ratingScan stars rest
      | _ => ratingScan stars rest
    else ratingScan stars rest

/-- Star glyphs accepted by variant B's rating regex `[★⭐•]`. -/
def starsB : List Char := ['★', '⭐', '•']

/-- Star glyphs accepted by variant A's rating regex `[★⭐]`. -/
def starsA : List Char := ['★', '⭐']

/-- Digit grouping of `price.toLocaleString('ru-RU')`: no-break space every
three digits from the right (input is the reversed digit list). -/
def groupRev : List Char → List Char
  | a :: b :: c :: d :: rest => a :: b :: c :: ' ' :: groupRev (d :: rest)
  | l => l

/-- JS `n.toLocaleString('ru-RU')` for a natural number. -/
def formatRu (n : Nat) : String :=
  String.mk (groupRev (toString n).toList.reverse).reverse

/-- JS `String.prototype.trim`: strip leading and trailing whitespace. -/
def jsTrim (s : String) : String :=
  String.mk (((s.toList.dropWhile jsSpace).reverse.dropWhile jsSpace).reverse)

/-- JS `String.prototype.startsWith`. -/
def strStartsWith (s pre : String) : Bool :=
  pre.toList.isPrefixOf s.toList

/-- Split a character list at every newline (JS `text.split('\n')`). -/
def splitLines : List Char → List (List Char)
  | [] => [[]]
  | '\n' :: rest => [] :: splitLines rest
  | c :: rest =>
    match splitLines rest with
    | l :: ls => (c :: l) :: ls
    | [] => [[c]]

/-- JS `text.split('\n').filter(l => l.trim())`: lines of an `innerText`
blob, dropping whitespace-only lines (the lines themselves stay untrimmed). -/
def linesOf (text : String) : List String :=
  ((splitLines text.toList).map String.mk).filter (fun l => jsTrim l ≠ "")

namespace Ozon

/-! ## Extraction data model

DOM nodes that the in-page search extraction touches are modelled by plain
records: the oracle decides what `querySelectorAll` returned and what each
node's attributes and `innerText` are.  A per-record `raises` flag models an
extraction step throwing inside the per-item `try`; the `catch` skips the
item ("Skip problematic items" / "Skip problematic cards"). -/

/-- One scraped search result (the object pushed into `items`). -/
structure SearchResult where
  id : String
  url : String
  name : String
  price : Option Nat
  priceFormatted : Option String
  image : Option String
  rating : Option (Nat × Nat)
deriving Repr, DecidableEq

/-- The product-card container found for a link: its `innerText` and the
`src` of its first `img` (possibly the empty string, which is falsy). -/
structure Container where
  text : String
  img : Option String
deriving Repr, DecidableEq

/-- Variant B: one element of `querySelectorAll('a[href*="/product/"]')`.
`href` is `getAttribute('href')`; `container` is the result of the
`closest(...)` fallback chain; `raises` models the extraction body throwing
after the seen-set update. -/
structure RawLinkB where
  href : Option String
  raises : Bool
  container : Option Container
deriving Repr, DecidableEq

/-- Variant A: one card of the first non-empty selector cascade.  `href` is
the product link's `getAttribute('href')` (`none` when no link was found);
`text` is the resolved `innerText` (container's if a container was found,
else the link's own). -/
structure RawCardA where
  href : Option String
  text : String
  img : Option String
  raises : Bool
deriving Repr, DecidableEq

/-- Trimmed and falsy-normalised image source: `img?.src || null`. -/
def imageOf : Option String → Option String
  | some s => if s = "" then none else some s
  | none => none

/-- Variant B price loop over the filtered lines: the first line containing
`₽` whose number-token regex matches sets the price and breaks; a `₽` line
without digits is passed over. -/
def priceOfB : List String → Option Nat
  | [] => none
  | L :: rest =>
    if strContains L "₽" then
      match matchNumTok L.toList with
      | some n => some n
      | none => priceOfB rest
    else priceOfB rest

/-- Variant A price loop: the first line containing `₽` becomes `priceText`
and the loop breaks there whether or not a number token was found. -/
def priceOfA : List String → Option Nat × String
  | [] => (none, "")
  | L :: rest =>
    if strContains L "₽" then (matchNumTok L.toList, L) else priceOfA rest

/-- Variant B name loop: first line whose trimmed text is non-empty, has no
`₽`, is not a `-?\d+%?` badge, and has length strictly between 15 and 300. -/
def findNameB : List String → Option String
  | [] => none
  | L :: rest =>
    let t := jsTrim L
    if t != "" && !strContains t "₽" && !isBadgeB t &&
       decide (15 < t.length) && decide (t.length < 300)
    then some t else findNameB rest

/-- Variant A name loop: first line whose trimmed text is non-empty, has no
`₽`, matches neither `^\d+%?$` nor `^-\d+%$`, and is longer than 10. -/
def findNameA : List String → Option String
  | [] => none
  | L :: rest =>
    let t := jsTrim L
    if t != "" && !strContains t "₽" && !digitsPercentOpt t.toList &&
       !isNegPercentBadge t && decide (10 < t.length)
    then some t else findNameA rest

/-- Variant B item constructor (the object literal pushed by the loop). -/
def mkItemB (id href : String) (c : Container) : SearchResult :=
  let lines := linesOf c.text
  let price := priceOfB lines
  { id := id
    url := "https://www.ozon.ru" ++ (if strStartsWith href "/" then "" else "/") ++
           String.mk (href.toList.takeWhile (fun x => x ≠ '?'))
    name := (findNameB lines).getD ("Product " ++ id)
    price := price
    priceFormatted :=
      match price with
      | some p => if p ≠ 0 then some (formatRu p ++ " ₽") else none
      | none => none
    image := imageOf c.img
    rating := ratingScan starsB c.text.toList }

/-- Variant A item constructor. -/
def mkItemA (id href : String) (c : RawCardA) : SearchResult :=
  let lines := linesOf c.text
  let pr := priceOfA lines
  { id := id
    url := "https://www.ozon.ru" ++ (if strStartsWith href "/" then href else "/" ++ href)
    name := (findNameA lines).getD "Unknown"
    price := pr.1
    priceFormatted :=
      match pr.1 with
      | some p =>
        if p ≠ 0 then some (formatRu p ++ " ₽")
        else if pr.2 = "" then none else some pr.2
      | none => if pr.2 = "" then none else some pr.2
    image := imageOf c.img
    rating := ratingScan starsA c.text.toList }

/-- Variant B per-link step condensed to its decision structure:
`none` — the link is skipped before the seen-set update (`!href`, or the id
pattern fails); `some (id, none)` — the id enters the seen set but no item is
pushed (the body raised, or no container was found); `some (id, some r)` —
the item `r` is pushed if `id` is new. -/
def classifyB (l : RawLinkB) : Option (String × Option SearchResult) :=
  match l.href with
  | none => none
  | some href =>
    match matchIdPatB href.toList with
    | none => none
    | some id =>
      some (id, if l.raises then none else (l.container.map (mkItemB id href)))

/-- Variant A per-card step: skipped before the seen-set update when there is
no link, the href lacks `/product/`, or the id pattern fails. -/
def classifyA (c : RawCardA) : Option (String × Option SearchResult) :=
  match c.href with
  | none => none
  | some href =>
    if strContains href "/product/" then
      match matchIdPatA href.toList with
      | none => none
      | some id => some (id, if c.raises then none else some (mkItemA id href c))
    else none

/-- The common shape of both search extraction loops: stop when the limit is
reached, deduplicate by product id through the `seen` set, push accepted
items (accumulated in reverse). -/
def dedupLoop {L R : Type} (classify : L → Option (String × Option R)) (limit : Nat) :
    List L → List String → List R → List R
  | [], _, acc => acc.reverse
  | l :: rest, seen, acc =>
    if limit ≤ acc.length then acc.reverse
    else
      match classify l with
      | none => dedupLoop classify limit rest seen acc
      | some (id, ro) =>
        if seen.contains id then dedupLoop classify limit rest seen acc
        else
          match ro with
          | none => dedupLoop classify limit rest (id :: seen) acc
          | some r => dedupLoop classify limit rest (id :: seen) (r :: acc)

/-- Variant B `page.evaluate` over the search page (extraction only). -/
def searchEvalB (limit : Nat) (links : List RawLinkB) : List SearchResult :=
  dedupLoop classifyB limit links [] []

/-- Variant A `page.evaluate` over the search page (extraction only). -/
def searchEvalA (limit : Nat) (cards : List RawCardA) : List SearchResult :=
  dedupLoop classifyA limit cards [] []

/-! ## Category extraction (identical code in both variants) -/

/-- One element of `querySelectorAll('a[href*="/category/"]')`. -/
structure CatLink where
  href : Option String
  text : Option String
deriving Repr, DecidableEq

/-- A scraped category entry. -/
structure Category where
  name : String
  url : String
deriving Repr, DecidableEq

/-- The category loop: keep links with a truthy href and a trimmed name of
length strictly between 1 and 100, deduplicated by href. -/
def catLoop : List CatLink → List String → List Category → List Category
  | [], _, acc => acc.reverse
  | l :: rest, seen, acc =>
    match l.href, l.text with
    | some h, some t0 =>
      let n := jsTrim t0
      if h != "" && n != "" && decide (1 < n.length) && decide (n.length < 100) &&
         !seen.contains h
      then catLoop rest (h :: seen)
        ({ name := n
           url := if strStartsWith h "http" then h else "https://www.ozon.ru" ++ h } :: acc)
      else catLoop rest seen acc
    | _, _ => catLoop rest seen acc

/-- `evaluate` of `getCategories`. -/
def catEval (links : List CatLink) : List Category :=
  catLoop links [] []

end Ozon

namespace Ozon

/-! ## Shared operation-level types -/

/-- Result of the in-page `evaluate` on a *product details* page.  The
specification puts this site-markup extraction out of scope, so the record is
supplied directly by the navigation oracle. -/
structure PData where
  title : Option String
  price : Option Nat
  oldPrice : Option Nat
  discount : Option Nat
  rating : Option (Nat × Nat)
  reviewsCount : Option Nat
  images : List String
  characteristics : List (String × String)
  description : Option String
  seller : Option String
  inStock : Bool
deriving Repr, DecidableEq

/-- The value returned by `getProductDetails`: the evaluate record plus the
id extracted from the final URL and the final URL itself. -/
structure Product where
  data : PData
  id : Option String
  url : String
deriving Repr, DecidableEq

/-- The distinct failure kinds of the embedded operations.
`launchFailed` — `chromium.launch` threw; `timeout` — `page.goto` exceeded
its bound; `blocked` — a block signature forced a throw; `notFound` — the
product page loaded but had no recognisable title ("access restricted");
`nullPage` — a method was invoked on a `null` page handle (a TypeError). -/
inductive OzonError where
  | launchFailed
  | timeout
  | blocked
  | notFound
  | nullPage
deriving Repr, DecidableEq

/-- One entry of a `getProductsList` result: a product, or the per-item
`{ id, error }` placeholder. -/
inductive PEntry where
  | prod (p : Product)
  | failed (id : String) (e : OzonError)
deriving Repr, DecidableEq

/-- The id carried by a list entry's placeholder, if it is one. -/
def PEntry.failedId : PEntry → Option String
  | .prod _ => none
  | .failed id _ => some id

/-- Result record of `setLocation`. -/
structure LocResult where
  success : Bool
  city : Option String
deriving Repr, DecidableEq

/-- The static sort-option catalog both variants return from `getFilters`. -/
def sortOptionsStatic : List (String × String) :=
  [("popular", "По популярности"), ("price", "По цене (возрастание)"),
   ("price_desc", "По цене (убывание)"), ("new", "По новизне"),
   ("rating", "По рейтингу"), ("discount", "По скидке")]

/-- Result record of `getFilters` (variant B leaves `availableFilters`
empty; variant A fills it from the page). -/
structure FiltersResult where
  sortOptions : List (String × String)
  priceFilter : Bool
  availableFilters : List String
deriving Repr, DecidableEq

/-- Variant B block test (`search`/`getProductDetails`):
`title.includes('Antibot') || title.includes('ограничен')`. -/
def isBlockedTitleB (t : String) : Bool :=
  strContains t "Antibot" || strContains t "ограничен"

/-- Variant A `hasCaptcha()`:
`title.includes('Antibot') || title.includes('Captcha') || title.includes('ограничен')`. -/
def hasCaptchaTitle (t : String) : Bool :=
  strContains t "Antibot" || strContains t "Captcha" || strContains t "ограничен"

end Ozon

namespace OzonB

open Ozon

/-! ## Variant B: fresh-session-per-operation client (`src/ozon-client.js`) -/

/-- Controller fields of the variant-B client plus the count of OS browser
processes this controller has spawned and not yet closed (`alive`). -/
structure State where
  browser : Bool
  context : Bool
  page : Bool
  alive : Nat
deriving Repr, DecidableEq

/-- `constructor()`: all handles null. -/
def newClient : State := ⟨false, false, false, 0⟩

/-- Oracle for one navigation: did `page.goto` succeed, the resulting
`page.title()` and `page.url()`, and the DOM contents the extraction reads. -/
structure Nav where
  ok : Bool
  title : String
  url : String
  links : List RawLinkB
  pdata : PData
  cats : List CatLink
deriving Repr, DecidableEq

/-- `close()`: closes the held browser (releasing its OS process) and nulls
the three handles; a no-op when no browser is held.  The underlying
`browser.close()` is modelled as an infallible release, so the source's
`try { ... } catch { /* ignore */ }` has nothing to catch. -/
def close (s : State) : State :=
  if s.browser then { browser := false, context := false, page := false, alive := s.alive - 1 }
  else s

/-- `createBrowser()`: close any existing browser, then launch a fresh
process with a new context and page.  A launch failure propagates. -/
def createBrowser (launchOk : Bool) (s : State) : Except OzonError Unit × State :=
  let s1 := close s
  if launchOk then
    (.ok (), { browser := true, context := true, page := true, alive := s1.alive + 1 })
  else (.error .launchFailed, s1)

/-- `loadPage(url)`: fresh browser, `goto` with a 90 s bound, settle wait,
then read the title. -/
def loadPage (launchOk : Bool) (nav : Nav) (s : State) : Except OzonError String × State :=
  match createBrowser launchOk s with
  | (.error e, s1) => (.error e, s1)
  | (.ok _, s1) => if nav.ok then (.ok nav.title, s1) else (.error .timeout, s1)

/-- `search(query, options)`: load the search page; on a block-signature
title close and return `[]`; otherwise extract, close and return.  The
`catch` closes and rethrows.  (URL building from `query`/`options` is pure
string plumbing the spec puts out of scope; only `limit` is observable.) -/
def search (launchOk : Bool) (nav : Nav) (limit : Nat) (s : State) :
    Except OzonError (List SearchResult) × State :=
  match loadPage launchOk nav s with
  | (.error e, s1) => (.error e, close s1)
  | (.ok title, s1) =>
    if isBlockedTitleB title then (.ok [], close s1)
    else (.ok (searchEvalB limit nav.links), close s1)

/-- `getProductDetails(idOrUrl)`: load the homepage (fresh browser), then
navigate the same page to the product URL; throw on a block signature; else
extract, take the id from the final URL, close and return.  The `catch`
closes and rethrows. -/
def getProductDetails (launchOk : Bool) (navHome navProd : Nav) (s : State) :
    Except OzonError Product × State :=
  match loadPage launchOk navHome s with
  | (.error e, s1) => (.error e, close s1)
  | (.ok _, s1) =>
    if !navProd.ok then (.error .timeout, close s1)
    else if isBlockedTitleB navProd.title then (.error .blocked, close s1)
    else (.ok { data := navProd.pdata, id := matchDashNumStr navProd.url, url := navProd.url },
          close s1)

/-- Per-item oracle for `getProductsList`. -/
structure ItemEnv where
  launchOk : Bool
  navHome : Nav
  navProd : Nav
deriving Repr, DecidableEq

/-- `getProductsList(ids)`: sequential per-item fetch with a per-item
`try/catch` that records `{ id, error }` and continues.  The third component
counts pacing delays between items: this variant's loop body contains no
`waitForTimeout`, so it performs none. -/
def getProductsList (env : Nat → ItemEnv) :
    List String → Nat → State → List PEntry × State × Nat
  | [], _, s => ([], s, 0)
  | id :: rest, k, s =>
    let e := env k
    match getProductDetails e.launchOk e.navHome e.navProd s with
    | (.ok p, s1) =>
      match getProductsList env rest (k + 1) s1 with
      | (l, s2, d) => (PEntry.prod p :: l, s2, d)
    | (.error err, s1) =>
      match getProductsList env rest (k + 1) s1 with
      | (l, s2, d) => (PEntry.failed id err :: l, s2, d)

/-- `getCategories()`: load the homepage (fresh browser; no block check in
this variant), extract category links, close and return; the `catch` closes
and rethrows. -/
def getCategories (launchOk : Bool) (nav : Nav) (s : State) :
    Except OzonError (List Category) × State :=
  match loadPage launchOk nav s with
  | (.error e, s1) => (.error e, close s1)
  | (.ok _, s1) => (.ok (catEval nav.cats), close s1)

/-- `setLocation(city)`: stub that spawns nothing and always succeeds. -/
def setLocation (city : String) (s : State) : Except OzonError LocResult × State :=
  (.ok { success := true, city := some city }, s)

/-- `getFilters(query)`: static catalog, no browser use. -/
def getFilters (_query : String) (s : State) : Except OzonError FiltersResult × State :=
  (.ok { sortOptions := sortOptionsStatic, priceFilter := true, availableFilters := [] }, s)

end OzonB

namespace OzonA

open Ozon

/-! ## Variant A: long-lived-session client (second client file)

One persistent browser; a homepage warm-up skipped when the previous warm-up
is younger than `homepageVisitInterval`; a single recovery retry after a
detected block.  Each operation that may perform a warm-up takes the
`Date.now()` values of its `visitHomepage` calls and one navigation oracle
per potential `page.goto`.  The third result component counts homepage
navigations actually performed (`search`, `getProductDetails`) or pacing
delays (`getProductsList`). -/

/-- Controller fields of the variant-A client plus the live-process count. -/
structure State where
  browser : Bool
  context : Bool
  page : Bool
  isInitialized : Bool
  lastHomepageVisit : Nat
  alive : Nat
deriving Repr, DecidableEq

/-- `constructor()`: handles null, not initialized, `lastHomepageVisit = 0`. -/
def newClient : State := ⟨false, false, false, false, 0, 0⟩

/-- `this.homepageVisitInterval = 5 * 60 * 1000`. -/
def homepageVisitInterval : Nat := 5 * 60 * 1000

/-- Oracle for one navigation of this variant. -/
structure Nav where
  ok : Bool
  title : String
  url : String
  cards : List RawCardA
  pdata : PData
  cats : List CatLink
deriving Repr, DecidableEq

/-- `visitHomepage(force)`: skip when not forced and the last visit is
younger than the freshness window (`now - last < interval && last > 0`);
otherwise `goto` the homepage (a timeout propagates and leaves
`lastHomepageVisit` unchanged), simulate human behaviour, and record the
visit time. -/
def visitHomepage (force : Bool) (now : Nat) (nav : Nav) (s : State) :
    Except OzonError Unit × State × Nat :=
  if !force && decide (now - s.lastHomepageVisit < homepageVisitInterval) &&
     decide (0 < s.lastHomepageVisit) then
    (.ok (), s, 0)
  else if !s.page then (.error .nullPage, s, 0)
  else if !nav.ok then (.error .timeout, s, 1)
  else (.ok (), { s with lastHomepageVisit := now }, 1)

/-- `init()`: a no-op when already initialized; otherwise launch the browser,
create context and page (a launch failure propagates before any handle is
assigned), then warm up via `visitHomepage()`; only after a successful
warm-up is `isInitialized` set.  Note that a pre-existing browser is *not*
closed before the new launch. -/
def init (launchOk : Bool) (now : Nat) (nav : Nav) (s : State) :
    Except OzonError Unit × State × Nat :=
  if s.isInitialized then (.ok (), s, 0)
  else if !launchOk then (.error .launchFailed, s, 0)
  else
    let s1 : State :=
      { s with browser := true, context := true, page := true, alive := s.alive + 1 }
    match visitHomepage false now nav s1 with
    | (.error e, s2, n) => (.error e, s2, n)
    | (.ok _, s2, n) => (.ok (), { s2 with isInitialized := true }, n)

/-- `close()`: closes the held browser and nulls the handles; a no-op when no
browser is held.  `lastHomepageVisit` is not reset by the source. -/
def close (s : State) : State :=
  if s.browser then
    { browser := false, context := false, page := false, isInitialized := false
      lastHomepageVisit := s.lastHomepageVisit, alive := s.alive - 1 }
  else s

/-- The node-side tail of `getProductDetails`: extract the id from the final
URL, then reject the record when the title shows the error page
(`product.title === 'Доступ ограничен' || !product.title`). -/
def titleRestricted : Option String → Bool
  | none => true
  | some x => x = "" || x = "Доступ ограничен"

/-- Build or reject the product value from the final navigation. -/
def finishProduct (nav : Nav) : Except OzonError Product :=
  if titleRestricted nav.pdata.title then .error .notFound
  else .ok { data := nav.pdata, id := matchDashNumStr nav.url, url := nav.url }

/-- `search(query, options)`: `init`, warm-up, `goto` the search URL; on a
block signature reset the window, force a re-warm and `goto` again — with
*no* second block check — then extract from whatever page is current. -/
def search (launchOk : Bool) (t0 t1 t2 : Nat) (navInit navW1 navS1 navW2 navS2 : Nav)
    (limit : Nat) (s : State) : Except OzonError (List SearchResult) × State × Nat :=
  match init launchOk t0 navInit s with
  | (.error e, s1, n1) => (.error e, s1, n1)
  | (.ok _, s1, n1) =>
    match visitHomepage false t1 navW1 s1 with
    | (.error e, s2, n2) => (.error e, s2, n1 + n2)
    | (.ok _, s2, n2) =>
      if !s2.page then (.error .nullPage, s2, n1 + n2)
      else if !navS1.ok then (.error .timeout, s2, n1 + n2)
      else if hasCaptchaTitle navS1.title then
        let s3 : State := { s2 with lastHomepageVisit := 0 }
        match visitHomepage true t2 navW2 s3 with
        | (.error e, s4, n3) => (.error e, s4, n1 + n2 + n3)
        | (.ok _, s4, n3) =>
          if !navS2.ok then (.error .timeout, s4, n1 + n2 + n3)
          else (.ok (searchEvalA limit navS2.cards), s4, n1 + n2 + n3)
      else (.ok (searchEvalA limit navS1.cards), s2, n1 + n2)

/-- `getProductDetails(idOrUrl)`: `init`, warm-up, `goto` the product URL; on
a block signature retry via an *unforced* `visitHomepage()` and a second
`goto`, and throw `blocked` if the signature is still present; otherwise
extract and reject unrecognisable titles as `notFound`. -/
def getProductDetails (launchOk : Bool) (t0 t1 t2 : Nat)
    (navInit navW1 navP1 navW2 navP2 : Nav) (s : State) :
    Except OzonError Product × State × Nat :=
  match init launchOk t0 navInit s with
  | (.error e, s1, n1) => (.error e, s1, n1)
  | (.ok _, s1, n1) =>
    match visitHomepage false t1 navW1 s1 with
    | (.error e, s2, n2) => (.error e, s2, n1 + n2)
    | (.ok _, s2, n2) =>
      if !s2.page then (.error .nullPage, s2, n1 + n2)
      else if !navP1.ok then (.error .timeout, s2, n1 + n2)
      else if hasCaptchaTitle navP1.title then
        match visitHomepage false t2 navW2 s2 with
        | (.error e, s3, n3) => (.error e, s3, n1 + n2 + n3)
        | (.ok _, s3, n3) =>
          if !navP2.ok then (.error .timeout, s3, n1 + n2 + n3)
          else if hasCaptchaTitle navP2.title then (.error .blocked, s3, n1 + n2 + n3)
          else (finishProduct navP2, s3, n1 + n2 + n3)
      else (finishProduct navP1, s2, n1 + n2)

/-- Per-item oracle for `getProductsList`. -/
structure ItemEnv where
  launchOk : Bool
  t0 : Nat
  t1 : Nat
  t2 : Nat
  navInit : Nav
  navW1 : Nav
  navP1 : Nav
  navW2 : Nav
  navP2 : Nav
deriving Repr, DecidableEq

/-- `getProductsList(ids)`: per-item `try/catch` recording `{ id, error }`,
then `this.page.waitForTimeout(2000)` after *every* item — a pacing delay
that throws a TypeError when the page handle is still null (possible when
every launch so far failed).  The counter tallies performed delays. -/
def getProductsList (env : Nat → ItemEnv) :
    List String → Nat → State → Except OzonError (List PEntry) × State × Nat
  | [], _, s => (.ok [], s, 0)
  | id :: rest, k, s =>
    let e := env k
    let r := getProductDetails e.launchOk e.t0 e.t1 e.t2 e.navInit e.navW1 e.navP1 e.navW2 e.navP2 s
    let entry : PEntry :=
      match r.1 with
      | .ok p => .prod p
      | .error err => .failed id err
    let s1 := r.2.1
    if !s1.page then (.error .nullPage, s1, 0)
    else
      match getProductsList env rest (k + 1) s1 with
      | (.ok l, s2, d) => (.ok (entry :: l), s2, d + 1)
      | (.error e2, s2, d) => (.error e2, s2, d + 1)

/-- `getCategories()`: `init`, direct `goto` to the homepage (not via
`visitHomepage`), extract category links; the session stays open. -/
def getCategories (launchOk : Bool) (t0 : Nat) (navInit navHome : Nav) (s : State) :
    Except OzonError (List Category) × State × Nat :=
  match init launchOk t0 navInit s with
  | (.error e, s1, n1) => (.error e, s1, n1)
  | (.ok _, s1, n1) =>
    if !s1.page then (.error .nullPage, s1, n1)
    else if !navHome.ok then (.error .timeout, s1, n1)
    else (.ok (catEval navHome.cats), s1, n1)

/-- `setLocation(city)`: `init`, `goto` the homepage (outside any `try`, so a
timeout propagates), then best-effort UI interaction inside a `try/catch`
whose success is oracle-decided; failures degrade to `{ success: false }`. -/
def setLocation (launchOk : Bool) (t0 : Nat) (navInit navHome : Nav) (city : String)
    (uiOk : Bool) (s : State) : Except OzonError LocResult × State × Nat :=
  match init launchOk t0 navInit s with
  | (.error e, s1, n1) => (.error e, s1, n1)
  | (.ok _, s1, n1) =>
    if !s1.page then (.error .nullPage, s1, n1)
    else if !navHome.ok then (.error .timeout, s1, n1)
    else if uiOk then (.ok { success := true, city := some city }, s1, n1)
    else (.ok { success := false, city := none }, s1, n1)

/-- `getFilters(query)`: `init`, `goto` the search URL, static catalog plus
the oracle-scraped filter labels; the session stays open. -/
def getFilters (launchOk : Bool) (t0 : Nat) (navInit navF : Nav) (avail : List String)
    (s : State) : Except OzonError FiltersResult × State × Nat :=
  match init launchOk t0 navInit s with
  | (.error e, s1, n1) => (.error e, s1, n1)
  | (.ok _, s1, n1) =>
    if !s1.page then (.error .nullPage, s1, n1)
    else if !navF.ok then (.error .timeout, s1, n1)
    else (.ok { sortOptions := sortOptionsStatic, priceFilter := true,
                availableFilters := avail }, s1, n1)

end OzonA

/-! ## Well-formedness predicates and concrete fixtures -/

/-- Variant B resource invariant: the live-process count matches the held
browser handle. -/
def OzonB.wf (s : OzonB.State) : Prop :=
  s.alive = if s.browser then 1 else 0

/-- Variant B handle coherence: with no browser there is no context or
page (true of every state the source can reach, since the three handles are
assigned and nulled together). -/
def OzonB.coherent (s : OzonB.State) : Prop :=
  s.browser = false → s.context = false ∧ s.page = false

/-- Variant A resource invariant, plus the absence of a half-initialized
session: a held browser comes with a completed `init` and vice versa. -/
def OzonA.wfStrict (s : OzonA.State) : Prop :=
  s.alive = (if s.browser then 1 else 0) ∧ s.browser = s.isInitialized

/-- Variant A handle coherence (see `OzonB.coherent`). -/
def OzonA.coherent (s : OzonA.State) : Prop :=
  s.browser = false → s.context = false ∧ s.page = false

/-- A benign product-page evaluate result. -/
def pdFix : Ozon.PData :=
  ⟨some "Смартфон Example", some 999, none, none, none, none, [], [], none, none, true⟩

/-- Successful navigation fixtures for each variant. -/
def navBOk : OzonB.Nav :=
  ⟨true, "Интернет-магазин Ozon", "https://www.ozon.ru/product/smartfon-example-12345/",
   [], pdFix, []⟩

/-- A navigation that loads but shows the block page. -/
def navBBlocked : OzonB.Nav :=
  ⟨true, "Antibot Challenge", "https://www.ozon.ru/", [], pdFix, []⟩

/-- A navigation whose `goto` times out. -/
def navBFail : OzonB.Nav := ⟨false, "", "", [], pdFix, []⟩

/-- Successful variant-A navigation fixture. -/
def navAOk : OzonA.Nav :=
  ⟨true, "Интернет-магазин Ozon", "https://www.ozon.ru/product/smartfon-example-12345/",
   [], pdFix, []⟩

/-- Variant-A navigation landing on the block page. -/
def navABlocked : OzonA.Nav :=
  ⟨true, "Доступ ограничен", "https://www.ozon.ru/", [], pdFix, []⟩

/-- Variant-A navigation whose `goto` times out. -/
def navAFail : OzonA.Nav := ⟨false, "", "", [], pdFix, []⟩

/-- The resource-relevant projection of a variant-A state: live-process
count, browser handle, page handle and initialization flag (everything an
operation may consult except the warm-up clock). -/
def OzonA.core (s : OzonA.State) : Nat × Bool × Bool × Bool :=
  (s.alive, s.browser, s.page, s.isInitialized)

/-- A benign per-item oracle for the variant-A batch loop. -/
def itemEnvAOk : OzonA.ItemEnv := ⟨true, 10, 20, 30, navAOk, navAOk, navAOk, navAOk, navAOk⟩

/-- A per-item oracle whose launch succeeds but whose init warm-up times
out, leaving a half-initialized session. -/
def itemEnvAInitFail : OzonA.ItemEnv :=
  ⟨true, 10, 20, 30, navAFail, navAOk, navAOk, navAOk, navAOk⟩

/-- A benign per-item oracle for the variant-B batch loop. -/
def itemEnvBOk : OzonB.ItemEnv := ⟨true, navBOk, navBOk⟩

/-- Batch oracle whose first item fails its init warm-up after a successful
launch and whose second item then re-launches: the first browser process is
never closed. -/
def envLeak : Nat → OzonA.ItemEnv :=
  fun k => if k = 0 then itemEnvAInitFail else itemEnvAOk

namespace Ozon

/-! ## Loop invariants of the search extraction -/

/-- The seen set after a step on `l` whose body raised (or that pushed
nothing): the id enters the set exactly when the link reached the dedup
check with a fresh id. -/
def seenUpd {L R : Type} (classify : L → Option (String × Option R))
    (l : L) (seen : List String) : List String :=
  match classify l with
  | none => seen
  | some (id, _) => if seen.contains id then seen else id :: seen

lemma dedupLoop_break {L R : Type} (classify : L → Option (String × Option R))
    (limit : Nat) (links : List L) (seen : List String) (acc : List R)
    (hb : limit ≤ acc.length) :
    dedupLoop classify limit links seen acc = acc.reverse := by
  cases links with
  | nil => rfl
  | cons l rest => simp [dedupLoop, hb]

lemma dedupLoop_spec {L R : Type} (classify : L → Option (String × Option R))
    (idOf : R → String)
    (hcl : ∀ l id r, classify l = some (id, some r) → idOf r = id) (limit : Nat) :
    ∀ (links : List L) (seen : List String) (acc : List R),
      (acc.map idOf).Nodup → (∀ i ∈ acc.map idOf, i ∈ seen) → acc.length ≤ limit →
      (dedupLoop classify limit links seen acc).length ≤ limit ∧
      ((dedupLoop classify limit links seen acc).map idOf).Nodup := by
  intro links
  induction links with
  | nil =>
    intro seen acc h1 h2 h3
    constructor
    · simpa [dedupLoop] using h3
    · simpa [dedupLoop, List.nodup_reverse] using h1
  | cons l rest ih =>
    intro seen acc h1 h2 h3
    by_cases hb : limit ≤ acc.length
    · constructor
      · simpa [dedupLoop_break _ _ _ _ _ hb] using h3
      · simpa [dedupLoop_break _ _ _ _ _ hb, List.nodup_reverse] using h1
    · have hlt : acc.length < limit := Nat.lt_of_not_le hb
      cases hc : classify l with
      | none =>
        have hstep : dedupLoop classify limit (l :: rest) seen acc =
            dedupLoop classify limit rest seen acc := by
          simp [dedupLoop, hb, hc]
        rw [hstep]; exact ih seen acc h1 h2 h3
      | some pr =>
        obtain ⟨id, ro⟩ := pr
        by_cases hs : id ∈ seen
        · have hstep : dedupLoop classify limit (l :: rest) seen acc =
              dedupLoop classify limit rest seen acc := by
            simp [dedupLoop, hb, hc, hs]
          rw [hstep]; exact ih seen acc h1 h2 h3
        · cases ro with
          | none =>
            have hstep : dedupLoop classify limit (l :: rest) seen acc =
                dedupLoop classify limit rest (id :: seen) acc := by
              simp [dedupLoop, hb, hc, hs]
            rw [hstep]
            exact ih (id :: seen) acc h1
              (fun i hi => List.mem_cons_of_mem _ (h2 i hi)) h3
          | some r =>
            have hstep : dedupLoop classify limit (l :: rest) seen acc =
                dedupLoop classify limit rest (id :: seen) (r :: acc) := by
              simp [dedupLoop, hb, hc, hs]
            rw [hstep]
            have hid : idOf r = id := hcl l id r hc
            have hnot : id ∉ acc.map idOf := fun hm => hs (h2 id hm)
            refine ih (id :: seen) (r :: acc) ?_ ?_ ?_
            · rw [List.map_cons, hid]
              exact List.nodup_cons.mpr ⟨hnot, h1⟩
            · intro i hi
              rw [List.map_cons, hid] at hi
              rcases List.mem_cons.mp hi with h | h
              · exact h ▸ List.mem_cons_self _ _
              · exact List.mem_cons_of_mem _ (h2 i h)
            · simpa using hlt

lemma classifyB_id (l : RawLinkB) (id : String) (r : SearchResult)
    (h : classifyB l = some (id, some r)) : r.id = id := by
  unfold classifyB at h
  simp only [String.toList] at h
  cases hh : l.href with
  | none => simp only [hh] at h; exact Option.noConfusion h
  | some href =>
    simp only [hh] at h
    cases hm : matchIdPatB href.data with
    | none => simp only [hm] at h; exact Option.noConfusion h
    | some id2 =>
      simp only [hm] at h
      cases hr : l.raises with
      | true => simp [hr] at h
      | false =>
        cases hcont : l.container with
        | none => simp [hr, hcont] at h
        | some c =>
          simp only [hr, hcont, Bool.false_eq_true, if_false, Option.map_some',
            Option.some.injEq, Prod.mk.injEq] at h
          obtain ⟨rfl, rfl⟩ := h
          rfl

lemma classifyA_id (c : RawCardA) (id : String) (r : SearchResult)
    (h : classifyA c = some (id, some r)) : r.id = id := by
  unfold classifyA at h
  simp only [String.toList] at h
  cases hh : c.href with
  | none => simp only [hh] at h; exact Option.noConfusion h
  | some href =>
    simp only [hh] at h
    by_cases hp : strContains href "/product/" = true
    · simp only [hp, if_true] at h
      cases hm : matchIdPatA href.data with
      | none => simp only [hm] at h; exact Option.noConfusion h
      | some id2 =>
        simp only [hm] at h
        cases hr : c.raises with
        | true => simp [hr] at h
        | false =>
          simp only [hr, Bool.false_eq_true, if_false, Option.some.injEq,
            Prod.mk.injEq] at h
          obtain ⟨rfl, rfl⟩ := h
          rfl
    · simp [hp] at h

/-- A raising record is classified as seen-only: its id may enter the seen
set but nothing is pushed. -/
lemma classifyB_raises (l : RawLinkB) (h : l.raises = true) :
    classifyB l = none ∨ ∃ id, classifyB l = some (id, none) := by
  unfold classifyB
  cases hh : l.href with
  | none => left; simp [hh]
  | some href =>
    cases hm : matchIdPatB href.data with
    | none => left; simp [hh, hm]
    | some id => right; exact ⟨id, by simp [hh, hm, h]⟩

lemma classifyA_raises (c : RawCardA) (h : c.raises = true) :
    classifyA c = none ∨ ∃ id, classifyA c = some (id, none) := by
  unfold classifyA
  cases hh : c.href with
  | none => left; simp [hh]
  | some href =>
    by_cases hp : strContains href "/product/" = true
    · cases hm : matchIdPatA href.data with
      | none => left; simp [hh, hp, hm]
      | some id => right; exact ⟨id, by simp [hh, hp, hm, h]⟩
    · left; simp [hh, hp]

/-- A step of the loop on a record classified as seen-only (raised body or
missing container) only updates the seen set. -/
lemma dedupLoop_skip {L R : Type} (classify : L → Option (String × Option R))
    (limit : Nat) (l : L) (rest : List L) (seen : List String) (acc : List R)
    (h : classify l = none ∨ ∃ id, classify l = some (id, none)) :
    dedupLoop classify limit (l :: rest) seen acc =
      dedupLoop classify limit rest (seenUpd classify l seen) acc := by
  by_cases hb : limit ≤ acc.length
  · rw [dedupLoop_break _ _ _ _ _ hb, dedupLoop_break _ _ _ _ _ hb]
  · rcases h with h | ⟨id, h⟩
    · simp [dedupLoop, hb, seenUpd, h]
    · by_cases hs : id ∈ seen
      · simp [dedupLoop, hb, seenUpd, h, hs]
      · simp [dedupLoop, hb, seenUpd, h, hs]

/-- A line list with no parsable price (no line with both a `₽` and a number
token) yields no price in the variant-B loop. -/
lemma priceOfB_none (lines : List String)
    (h : ∀ L ∈ lines, ¬(strContains L "₽" = true ∧ (matchNumTok L.toList).isSome = true)) :
    priceOfB lines = none := by
  induction lines with
  | nil => rfl
  | cons L rest ih =>
    rw [priceOfB]
    by_cases hc : strContains L "₽" = true
    · cases hm : matchNumTok L.toList with
      | none => simpa [hc, hm] using ih (fun L2 h2 => h L2 (List.mem_cons_of_mem _ h2))
      | some n =>
        exact absurd ⟨hc, by rw [hm]; rfl⟩ (h L (List.mem_cons_self _ _))
    · simpa [hc] using ih (fun L2 h2 => h L2 (List.mem_cons_of_mem _ h2))

/-- Same for the variant-A loop (which breaks at the first `₽` line whether
or not it parsed). -/
lemma priceOfA_none (lines : List String)
    (h : ∀ L ∈ lines, ¬(strContains L "₽" = true ∧ (matchNumTok L.toList).isSome = true)) :
    (priceOfA lines).1 = none := by
  induction lines with
  | nil => rfl
  | cons L rest ih =>
    rw [priceOfA]
    by_cases hc : strContains L "₽" = true
    · cases hm : matchNumTok L.toList with
      | none => simp [hc, hm]
      | some n =>
        exact absurd ⟨hc, by rw [hm]; rfl⟩ (h L (List.mem_cons_self _ _))
    · simpa [hc] using ih (fun L2 h2 => h L2 (List.mem_cons_of_mem _ h2))

end Ozon

/-! ## Variant B state lemmas -/

lemma OzonB.close_browser (s : OzonB.State) : (OzonB.close s).browser = false := by
  unfold OzonB.close
  split
  · rfl
  · rename_i h
    simpa using h

lemma OzonB.close_alive (s : OzonB.State) (hwf : OzonB.wf s) :
    (OzonB.close s).alive = 0 := by
  unfold OzonB.wf at hwf
  unfold OzonB.close
  split
  · rename_i h
    simp [h] at hwf
    simp [hwf]
  · rename_i h
    simp [Bool.not_eq_true] at h
    simp [h] at hwf
    simpa using hwf

lemma OzonB.close_wf (s : OzonB.State) (hwf : OzonB.wf s) : OzonB.wf (OzonB.close s) := by
  unfold OzonB.wf
  rw [OzonB.close_browser, OzonB.close_alive s hwf]
  rfl

lemma OzonB.close_close (s : OzonB.State) :
    OzonB.close (OzonB.close s) = OzonB.close s := by
  by_cases h : s.browser = true <;> simp [OzonB.close, h]

/-- Every branch of `loadPage` either keeps the closed state (failure before
or at launch) or holds the freshly spawned browser. -/
lemma OzonB.loadPage_state (lo : Bool) (nav : OzonB.Nav) (s : OzonB.State) :
    (OzonB.loadPage lo nav s).2 = OzonB.close s ∨
    (OzonB.loadPage lo nav s).2 =
      ⟨true, true, true, (OzonB.close s).alive + 1⟩ := by
  cases lo with
  | false => left; simp [OzonB.loadPage, OzonB.createBrowser]
  | true =>
    cases hok : nav.ok with
    | false => right; simp [OzonB.loadPage, OzonB.createBrowser, hok]
    | true => right; simp [OzonB.loadPage, OzonB.createBrowser, hok]

/-- `search` ends by closing whatever `loadPage` left, on every path. -/
lemma OzonB.search_state (lo : Bool) (nav : OzonB.Nav) (limit : Nat) (s : OzonB.State) :
    (OzonB.search lo nav limit s).2 = OzonB.close ((OzonB.loadPage lo nav s).2) := by
  unfold OzonB.search
  rcases h : OzonB.loadPage lo nav s with ⟨r, s1⟩
  cases r with
  | error e => simp
  | ok title =>
    simp only
    split <;> rfl

/-- `getProductDetails` ends by closing whatever the homepage `loadPage`
left, on every path. -/
lemma OzonB.getProductDetails_state (lo : Bool) (navHome navProd : OzonB.Nav)
    (s : OzonB.State) :
    (OzonB.getProductDetails lo navHome navProd s).2 =
      OzonB.close ((OzonB.loadPage lo navHome s).2) := by
  unfold OzonB.getProductDetails
  rcases h : OzonB.loadPage lo navHome s with ⟨r, s1⟩
  cases r with
  | error e => simp
  | ok title =>
    simp only
    split
    · rfl
    · split <;> rfl

/-- `getCategories` ends by closing whatever `loadPage` left, on every path. -/
lemma OzonB.getCategories_state (lo : Bool) (nav : OzonB.Nav) (s : OzonB.State) :
    (OzonB.getCategories lo nav s).2 = OzonB.close ((OzonB.loadPage lo nav s).2) := by
  unfold OzonB.getCategories
  rcases h : OzonB.loadPage lo nav s with ⟨r, s1⟩
  cases r with
  | error e => simp
  | ok title => simp

/-- The closed-and-released postcondition shared by the three
browser-spawning variant-B operations. -/
lemma OzonB.close_loadPage_released (lo : Bool) (nav : OzonB.Nav) (s : OzonB.State)
    (hwf : OzonB.wf s) :
    (OzonB.close ((OzonB.loadPage lo nav s).2)).browser = false ∧
    (OzonB.close ((OzonB.loadPage lo nav s).2)).alive = 0 := by
  rcases OzonB.loadPage_state lo nav s with h | h <;> rw [h]
  · rw [OzonB.close_close]
    exact ⟨OzonB.close_browser s, OzonB.close_alive s hwf⟩
  · have : OzonB.close (⟨true, true, true, (OzonB.close s).alive + 1⟩ : OzonB.State) =
        ⟨false, false, false, (OzonB.close s).alive⟩ := by
      simp [OzonB.close]
    rw [this]
    exact ⟨rfl, OzonB.close_alive s hwf⟩

/-! ## Claim theorems -/

/-- C1: in the fresh-session policy (variant B), for every query and options
(represented by an arbitrary navigation oracle and limit), if the loaded
page's title matches a block signature then `search` returns the empty list
and does not throw. -/
theorem claim_C1 (launchOk : Bool) (nav : OzonB.Nav) (limit : Nat) (s : OzonB.State)
    (hl : launchOk = true) (hok : nav.ok = true)
    (hb : Ozon.isBlockedTitleB nav.title = true) :
    (OzonB.search launchOk nav limit s).1 = Except.ok [] := by
  subst hl
  simp [OzonB.search, OzonB.loadPage, OzonB.createBrowser, hok, hb]

/-- Witness for C1 at a concrete blocked navigation. -/
theorem claim_C1_witness :
    (OzonB.search true navBBlocked 20 OzonB.newClient).1 = Except.ok [] :=
  claim_C1 true navBBlocked 20 OzonB.newClient rfl rfl (by decide)

/-- C5: in the fresh-session policy, every browser-spawning operation
(`search`, `getProductDetails`, `getCategories`) releases the browser
process on every exit path — success, detected block, timeout or launch
failure: the final state holds no browser and its live-process count is 0. -/
theorem claim_C5 (launchOk : Bool) (nav navHome navProd : OzonB.Nav) (limit : Nat)
    (s : OzonB.State) (hwf : OzonB.wf s) :
    ((OzonB.search launchOk nav limit s).2.browser = false ∧
     (OzonB.search launchOk nav limit s).2.alive = 0) ∧
    ((OzonB.getProductDetails launchOk navHome navProd s).2.browser = false ∧
     (OzonB.getProductDetails launchOk navHome navProd s).2.alive = 0) ∧
    ((OzonB.getCategories launchOk nav s).2.browser = false ∧
     (OzonB.getCategories launchOk nav s).2.alive = 0) := by
  refine ⟨?_, ?_, ?_⟩
  · rw [OzonB.search_state]
    exact OzonB.close_loadPage_released launchOk nav s hwf
  · rw [OzonB.getProductDetails_state]
    exact OzonB.close_loadPage_released launchOk navHome s hwf
  · rw [OzonB.getCategories_state]
    exact OzonB.close_loadPage_released launchOk nav s hwf

/-- Witness for C5: a timed-out search, a blocked product fetch and a
successful category fetch from a fresh controller all end released. -/
theorem claim_C5_witness :
    ((OzonB.search false navBFail 20 OzonB.newClient).2.browser = false ∧
     (OzonB.search false navBFail 20 OzonB.newClient).2.alive = 0) ∧
    ((OzonB.getProductDetails false navBOk navBBlocked OzonB.newClient).2.browser = false ∧
     (OzonB.getProductDetails false navBOk navBBlocked OzonB.newClient).2.alive = 0) ∧
    ((OzonB.getCategories false navBFail OzonB.newClient).2.browser = false ∧
     (OzonB.getCategories false navBFail OzonB.newClient).2.alive = 0) :=
  claim_C5 false navBFail navBOk navBBlocked 20 OzonB.newClient rfl

/-- C9: extraction is best-effort per record, in both variants: a scraped
item whose lines carry no parsable price (no line with a `₽` sign and a
number token) is still produced, with `price = none` rather than an error;
and a record whose extraction body raises contributes nothing to the result
while the loop continues over the remaining records (only the seen set may
grow by its id). -/
theorem claim_C9 :
    (∀ (id href : String) (c : Ozon.Container),
       (∀ L ∈ linesOf c.text,
          ¬(strContains L "₽" = true ∧ (matchNumTok L.toList).isSome = true)) →
       (Ozon.mkItemB id href c).price = none) ∧
    (∀ (id href : String) (c : Ozon.RawCardA),
       (∀ L ∈ linesOf c.text,
          ¬(strContains L "₽" = true ∧ (matchNumTok L.toList).isSome = true)) →
       (Ozon.mkItemA id href c).price = none) ∧
    (∀ (limit : Nat) (l : Ozon.RawLinkB) (rest : List Ozon.RawLinkB)
       (seen : List String) (acc : List Ozon.SearchResult), l.raises = true →
       Ozon.dedupLoop Ozon.classifyB limit (l :: rest) seen acc =
         Ozon.dedupLoop Ozon.classifyB limit rest
           (Ozon.seenUpd Ozon.classifyB l seen) acc) ∧
    (∀ (limit : Nat) (c : Ozon.RawCardA) (rest : List Ozon.RawCardA)
       (seen : List String) (acc : List Ozon.SearchResult), c.raises = true →
       Ozon.dedupLoop Ozon.classifyA limit (c :: rest) seen acc =
         Ozon.dedupLoop Ozon.classifyA limit rest
           (Ozon.seenUpd Ozon.classifyA c seen) acc) := by
  refine ⟨?_, ?_, ?_, ?_⟩
  · intro id href c h
    show Ozon.priceOfB (linesOf c.text) = none
    exact Ozon.priceOfB_none _ h
  · intro id href c h
    show (Ozon.priceOfA (linesOf c.text)).1 = none
    exact Ozon.priceOfA_none _ h
  · intro limit l rest seen acc hr
    exact Ozon.dedupLoop_skip _ _ _ _ _ _ (Ozon.classifyB_raises l hr)
  · intro limit c rest seen acc hr
    exact Ozon.dedupLoop_skip _ _ _ _ _ _ (Ozon.classifyA_raises c hr)

/-- Witness for C9 on concrete priceless and raising records. -/
theorem claim_C9_witness :
    (Ozon.mkItemB "1" "/product/a-1/" ⟨"Отличный товар без цены в тексте", none⟩).price = none ∧
    (Ozon.mkItemA "2" "/product/b-2/"
      ⟨some "/product/b-2/", "Другой товар без цены", none, false⟩).price = none ∧
    Ozon.dedupLoop Ozon.classifyB 5 [⟨some "/product/a-1/", true, none⟩] [] [] =
      Ozon.dedupLoop Ozon.classifyB 5 []
        (Ozon.seenUpd Ozon.classifyB ⟨some "/product/a-1/", true, none⟩ []) [] ∧
    Ozon.dedupLoop Ozon.classifyA 5 [⟨some "/product/b-2/", "t", none, true⟩] [] [] =
      Ozon.dedupLoop Ozon.classifyA 5 []
        (Ozon.seenUpd Ozon.classifyA ⟨some "/product/b-2/", "t", none, true⟩ []) [] :=
  ⟨claim_C9.1 "1" "/product/a-1/" _ (by decide),
   claim_C9.2.1 "2" "/product/b-2/" _ (by decide),
   claim_C9.2.2.1 5 _ [] [] [] rfl,
   claim_C9.2.2.2 5 _ [] [] [] rfl⟩

/-- C10: in both variants, for every DOM and every limit, the search
extraction returns at most `limit` items, and the ids of the returned items
are pairwise distinct (the seen-set deduplication). -/
theorem claim_C10 (limit : Nat) (links : List Ozon.RawLinkB) (cards : List Ozon.RawCardA) :
    ((Ozon.searchEvalB limit links).length ≤ limit ∧
     ((Ozon.searchEvalB limit links).map Ozon.SearchResult.id).Nodup) ∧
    ((Ozon.searchEvalA limit cards).length ≤ limit ∧
     ((Ozon.searchEvalA limit cards).map Ozon.SearchResult.id).Nodup) :=
  ⟨Ozon.dedupLoop_spec Ozon.classifyB Ozon.SearchResult.id Ozon.classifyB_id limit links [] []
     (by simp) (by simp) (by simp),
   Ozon.dedupLoop_spec Ozon.classifyA Ozon.SearchResult.id Ozon.classifyA_id limit cards [] []
     (by simp) (by simp) (by simp)⟩

/-! ## Variant A state lemmas -/

lemma OzonA.visitHomepage_state (f : Bool) (now : Nat) (nav : OzonA.Nav) (s : OzonA.State) :
    (OzonA.visitHomepage f now nav s).2.1 = s ∨
    (OzonA.visitHomepage f now nav s).2.1 = { s with lastHomepageVisit := now } := by
  unfold OzonA.visitHomepage
  split
  · left; rfl
  · split
    · left; rfl
    · split
      · left; rfl
      · right; rfl

lemma OzonA.visitHomepage_core (f : Bool) (now : Nat) (nav : OzonA.Nav) (s : OzonA.State) :
    (OzonA.visitHomepage f now nav s).2.1.alive = s.alive ∧
    (OzonA.visitHomepage f now nav s).2.1.browser = s.browser ∧
    (OzonA.visitHomepage f now nav s).2.1.page = s.page ∧
    (OzonA.visitHomepage f now nav s).2.1.isInitialized = s.isInitialized := by
  rcases OzonA.visitHomepage_state f now nav s with h | h <;> rw [h] <;> simp

lemma OzonA.visitHomepage_ok (f : Bool) (now : Nat) (nav : OzonA.Nav) (s : OzonA.State)
    (hp : s.page = true) (hok : nav.ok = true) :
    (OzonA.visitHomepage f now nav s).1 = .ok () := by
  unfold OzonA.visitHomepage
  split
  · rfl
  · simp [hp, hok]

lemma OzonA.visitHomepage_no_null (f : Bool) (now : Nat) (nav : OzonA.Nav)
    (s : OzonA.State) (hp : s.page = true) :
    (OzonA.visitHomepage f now nav s).1 ≠ .error .nullPage := by
  unfold OzonA.visitHomepage
  split
  · simp
  · simp only [hp]
    split
    · simp_all
    · split <;> simp

lemma OzonA.init_fields (lo : Bool) (now : Nat) (nav : OzonA.Nav) (s : OzonA.State) :
    (OzonA.init lo now nav s).2.1.alive =
      s.alive + (if s.isInitialized = false ∧ lo = true then 1 else 0) ∧
    (OzonA.init lo now nav s).2.1.browser = (s.browser || (!s.isInitialized && lo)) ∧
    (OzonA.init lo now nav s).2.1.page = (s.page || (!s.isInitialized && lo)) := by
  obtain ⟨b, co, p, ii, lh, al⟩ := s
  unfold OzonA.init
  cases ii with
  | true => simp
  | false =>
    cases lo with
    | false => simp
    | true =>
      dsimp only
      rcases h : OzonA.visitHomepage false now nav ⟨true, true, true, false, lh, al + 1⟩
        with ⟨r, s2, n⟩
      have hc := OzonA.visitHomepage_core false now nav ⟨true, true, true, false, lh, al + 1⟩
      rw [h] at hc
      simp only [] at hc
      cases r with
      | error e => simp [h, hc.1, hc.2.1, hc.2.2.1]
      | ok u => simp [h, hc.1, hc.2.1, hc.2.2.1]

lemma OzonA.init_no_null (lo : Bool) (now : Nat) (nav : OzonA.Nav) (s : OzonA.State) :
    (OzonA.init lo now nav s).1 ≠ .error .nullPage := by
  obtain ⟨b, co, p, ii, lh, al⟩ := s
  unfold OzonA.init
  cases ii with
  | true => simp
  | false =>
    cases lo with
    | false => simp
    | true =>
      dsimp only
      rcases h : OzonA.visitHomepage false now nav ⟨true, true, true, false, lh, al + 1⟩
        with ⟨r, s2, n⟩
      have hnn := OzonA.visitHomepage_no_null false now nav
        ⟨true, true, true, false, lh, al + 1⟩ rfl
      rw [h] at hnn
      cases r with
      | error e => simp only [h]; simpa using hnn
      | ok u => simp [h]

lemma OzonA.init_hpage (lo : Bool) (now : Nat) (nav : OzonA.Nav) (s : OzonA.State)
    (hpage : s.isInitialized = true → s.page = true) :
    ((OzonA.init lo now nav s).2.1.isInitialized = true →
      (OzonA.init lo now nav s).2.1.page = true) ∧
    ((OzonA.init lo now nav s).1 = .ok () → (OzonA.init lo now nav s).2.1.page = true) := by
  obtain ⟨b, co, p, ii, lh, al⟩ := s
  unfold OzonA.init
  cases ii with
  | true => exact ⟨fun _ => hpage rfl, fun _ => hpage rfl⟩
  | false =>
    cases lo with
    | false => simp
    | true =>
      dsimp only
      rcases h : OzonA.visitHomepage false now nav ⟨true, true, true, false, lh, al + 1⟩
        with ⟨r, s2, n⟩
      have hc := OzonA.visitHomepage_core false now nav ⟨true, true, true, false, lh, al + 1⟩
      rw [h] at hc
      simp only [] at hc
      cases r with
      | error e => simp [h, hc.2.2.1]
      | ok u => simp [h, hc.2.2.1]

lemma OzonA.init_ok (lo : Bool) (now : Nat) (nav : OzonA.Nav) (s : OzonA.State)
    (hlo : lo = true) (hok : nav.ok = true)
    (hpage : s.isInitialized = true → s.page = true) :
    (OzonA.init lo now nav s).1 = .ok () := by
  subst hlo
  obtain ⟨b, co, p, ii, lh, al⟩ := s
  unfold OzonA.init
  cases ii with
  | true => simp
  | false =>
    dsimp only
    rcases h : OzonA.visitHomepage false now nav ⟨true, true, true, false, lh, al + 1⟩
      with ⟨r, s2, n⟩
    have hko := OzonA.visitHomepage_ok false now nav
      ⟨true, true, true, false, lh, al + 1⟩ rfl hok
    rw [h] at hko
    cases r with
    | error e => simp only [h]; simp at hko
    | ok u => simp [h]

lemma OzonA.init_wfStrict (lo : Bool) (now : Nat) (nav : OzonA.Nav) (s : OzonA.State)
    (hwf : OzonA.wfStrict s) (hni : lo = true → nav.ok = true) :
    OzonA.wfStrict ((OzonA.init lo now nav s).2.1) := by
  obtain ⟨ha, hbi⟩ := hwf
  obtain ⟨b, co, p, ii, lh, al⟩ := s
  unfold OzonA.init
  cases ii with
  | true => exact ⟨ha, hbi⟩
  | false =>
    cases lo with
    | false => exact ⟨ha, hbi⟩
    | true =>
      simp only at ha hbi
      subst hbi
      have ha0 : al = 0 := by simpa using ha
      subst ha0
      dsimp only
      rcases h : OzonA.visitHomepage false now nav ⟨true, true, true, false, lh, 0 + 1⟩
        with ⟨r, s2, n⟩
      have hko := OzonA.visitHomepage_ok false now nav
        ⟨true, true, true, false, lh, 0 + 1⟩ rfl (hni rfl)
      rw [h] at hko
      cases r with
      | error e => simp only [h]; simp at hko
      | ok u =>
        have hc := OzonA.visitHomepage_core false now nav ⟨true, true, true, false, lh, 0 + 1⟩
        rw [h] at hc
        simp only [] at hc
        constructor
        · simp only [h]
          simp [hc.1, hc.2.1]
        · simp only [h]
          simp [hc.2.1]

lemma OzonA.init_alive_le (lo : Bool) (now : Nat) (nav : OzonA.Nav) (s : OzonA.State)
    (hwf : OzonA.wfStrict s) : (OzonA.init lo now nav s).2.1.alive ≤ 1 := by
  obtain ⟨ha, hbi⟩ := hwf
  rw [(OzonA.init_fields lo now nav s).1]
  cases hin : s.isInitialized with
  | true =>
    have h1 : s.alive ≤ 1 := by rw [ha]; split <;> omega
    simp [hin]
    omega
  | false =>
    have hbf : s.browser = false := by rw [hbi, hin]
    have ha0 : s.alive = 0 := by rw [ha, hbf]; rfl
    rw [ha0]
    split <;> omega

lemma OzonA.core_fields {a b : OzonA.State} (h : OzonA.core a = OzonA.core b) :
    a.alive = b.alive ∧ a.browser = b.browser ∧ a.page = b.page ∧
    a.isInitialized = b.isInitialized := by
  simpa [OzonA.core, Prod.ext_iff] using h

lemma OzonA.core_last (s : OzonA.State) (v : Nat) :
    OzonA.core { s with lastHomepageVisit := v } = OzonA.core s := rfl

lemma OzonA.visitHomepage_coreEq (f : Bool) (now : Nat) (nav : OzonA.Nav)
    (s : OzonA.State) :
    OzonA.core ((OzonA.visitHomepage f now nav s).2.1) = OzonA.core s := by
  rcases OzonA.visitHomepage_state f now nav s with h | h <;> rw [h]
  rfl

/-- After `init`, nothing in `getProductDetails` changes the session
handles, the initialization flag or the live-process count — only
`lastHomepageVisit` may move. -/
lemma OzonA.getProductDetails_coreEq (lo : Bool) (t0 t1 t2 : Nat)
    (n0 w1 p1 w2 p2 : OzonA.Nav) (s : OzonA.State) :
    OzonA.core ((OzonA.getProductDetails lo t0 t1 t2 n0 w1 p1 w2 p2 s).2.1) =
      OzonA.core ((OzonA.init lo t0 n0 s).2.1) := by
  unfold OzonA.getProductDetails
  rcases h0 : OzonA.init lo t0 n0 s with ⟨r0, s1, m0⟩
  cases r0 with
  | error e => simp [h0]
  | ok u =>
    rcases h1 : OzonA.visitHomepage false t1 w1 s1 with ⟨r1, s2, m1⟩
    have hc1 : OzonA.core s2 = OzonA.core s1 := by
      have h' := OzonA.visitHomepage_coreEq false t1 w1 s1
      rw [h1] at h'
      exact h'
    cases r1 with
    | error e => simp [h0, h1, hc1]
    | ok u1 =>
      rcases h2 : OzonA.visitHomepage false t2 w2 s2 with ⟨r2, s3, m2⟩
      have hc2 : OzonA.core s3 = OzonA.core s2 := by
        have h' := OzonA.visitHomepage_coreEq false t2 w2 s2
        rw [h2] at h'
        exact h'
      simp only [h0, h1]
      split
      · exact hc1
      · split
        · exact hc1
        · split
          · rw [h2]
            cases r2 with
            | error e => exact hc2.trans hc1
            | ok u2 =>
              dsimp only
              split
              · exact hc2.trans hc1
              · split
                · exact hc2.trans hc1
                · exact hc2.trans hc1
          · exact hc1

/-- After `init`, nothing in `search` changes the session handles, the
initialization flag or the live-process count either. -/
lemma OzonA.search_coreEq (lo : Bool) (t0 t1 t2 : Nat)
    (n0 w1 s1n w2 s2n : OzonA.Nav) (limit : Nat) (s : OzonA.State) :
    OzonA.core ((OzonA.search lo t0 t1 t2 n0 w1 s1n w2 s2n limit s).2.1) =
      OzonA.core ((OzonA.init lo t0 n0 s).2.1) := by
  unfold OzonA.search
  rcases h0 : OzonA.init lo t0 n0 s with ⟨r0, s1, m0⟩
  cases r0 with
  | error e => simp [h0]
  | ok u =>
    rcases h1 : OzonA.visitHomepage false t1 w1 s1 with ⟨r1, s2, m1⟩
    have hc1 : OzonA.core s2 = OzonA.core s1 := by
      have h' := OzonA.visitHomepage_coreEq false t1 w1 s1
      rw [h1] at h'
      exact h'
    cases r1 with
    | error e => simp [h0, h1, hc1]
    | ok u1 =>
      rcases h2 : OzonA.visitHomepage true t2 w2 { s2 with lastHomepageVisit := 0 }
        with ⟨r2, s3, m2⟩
      have hc2 : OzonA.core s3 = OzonA.core s2 := by
        have h' := OzonA.visitHomepage_coreEq true t2 w2 { s2 with lastHomepageVisit := 0 }
        rw [h2, OzonA.core_last] at h'
        exact h'
      simp only [h0, h1]
      split
      · exact hc1
      · split
        · exact hc1
        · split
          · rw [h2]
            cases r2 with
            | error e => exact hc2.trans hc1
            | ok u2 =>
              dsimp only
              split
              · exact hc2.trans hc1
              · exact hc2.trans hc1
          · exact hc1

/-- The three remaining variant-A operations do not touch the state after
`init` at all. -/
lemma OzonA.simpleOps_state (lo : Bool) (t0 : Nat) (n0 nv : OzonA.Nav)
    (city : String) (uiOk : Bool) (avail : List String) (s : OzonA.State) :
    (OzonA.getCategories lo t0 n0 nv s).2.1 = (OzonA.init lo t0 n0 s).2.1 ∧
    (OzonA.setLocation lo t0 n0 nv city uiOk s).2.1 = (OzonA.init lo t0 n0 s).2.1 ∧
    (OzonA.getFilters lo t0 n0 nv avail s).2.1 = (OzonA.init lo t0 n0 s).2.1 := by
  unfold OzonA.getCategories OzonA.setLocation OzonA.getFilters
  rcases h0 : OzonA.init lo t0 n0 s with ⟨r0, s1, m0⟩
  cases r0 with
  | error e => simp [h0]
  | ok u =>
    refine ⟨?_, ?_, ?_⟩ <;>
    · simp only [h0]
      split
      · rfl
      · split
        · rfl
        · first
          | rfl
          | (split
             · rfl
             · rfl)

lemma OzonA.finishProduct_cases (nav : OzonA.Nav) :
    OzonA.finishProduct nav = .error .notFound ∨
    ∃ p, OzonA.finishProduct nav = .ok p ∧ p.id = matchDashNumStr p.url := by
  unfold OzonA.finishProduct
  split
  · exact Or.inl rfl
  · exact Or.inr ⟨_, rfl, rfl⟩

/-- Every outcome of the variant-A `getProductDetails` on a coherent state:
a launch failure, a navigation timeout, a blocked error, a not-found error,
or a product whose `id` is the product-ID-pattern match of its final URL. -/
lemma OzonA.getProductDetails_result (lo : Bool) (t0 t1 t2 : Nat)
    (n0 w1 p1 w2 p2 : OzonA.Nav) (s : OzonA.State)
    (hpage : s.isInitialized = true → s.page = true) :
    (OzonA.getProductDetails lo t0 t1 t2 n0 w1 p1 w2 p2 s).1 = .error .launchFailed ∨
    (OzonA.getProductDetails lo t0 t1 t2 n0 w1 p1 w2 p2 s).1 = .error .timeout ∨
    (OzonA.getProductDetails lo t0 t1 t2 n0 w1 p1 w2 p2 s).1 = .error .blocked ∨
    (OzonA.getProductDetails lo t0 t1 t2 n0 w1 p1 w2 p2 s).1 = .error .notFound ∨
    ∃ p, (OzonA.getProductDetails lo t0 t1 t2 n0 w1 p1 w2 p2 s).1 = .ok p ∧
      p.id = matchDashNumStr p.url := by
  unfold OzonA.getProductDetails
  rcases h0 : OzonA.init lo t0 n0 s with ⟨r0, s1, m0⟩
  cases r0 with
  | error e =>
    have hnn := OzonA.init_no_null lo t0 n0 s
    rw [h0] at hnn
    cases e with
    | launchFailed => simp [h0]
    | timeout => simp [h0]
    | blocked => simp [h0]
    | notFound => simp [h0]
    | nullPage => exact absurd rfl hnn
  | ok u =>
    cases u
    have hs1p : s1.page = true := by
      have h' := (OzonA.init_hpage lo t0 n0 s hpage).2
      rw [h0] at h'
      exact h' rfl
    rcases h1 : OzonA.visitHomepage false t1 w1 s1 with ⟨r1, s2, m1⟩
    have hs2p : s2.page = true := by
      have h' := (OzonA.visitHomepage_core false t1 w1 s1).2.2.1
      rw [h1] at h'
      exact h'.trans hs1p
    cases r1 with
    | error e =>
      have hnn := OzonA.visitHomepage_no_null false t1 w1 s1 hs1p
      rw [h1] at hnn
      cases e with
      | launchFailed => simp [h0, h1]
      | timeout => simp [h0, h1]
      | blocked => simp [h0, h1]
      | notFound => simp [h0, h1]
      | nullPage => exact absurd rfl hnn
    | ok u1 =>
      cases u1
      rcases h2 : OzonA.visitHomepage false t2 w2 s2 with ⟨r2, s3, m2⟩
      simp only [h0, h1]
      split
      · rename_i hq
        rw [hs2p] at hq
        simp at hq
      · split
        · simp
        · split
          · rw [h2]
            cases r2 with
            | error e =>
              have hnn := OzonA.visitHomepage_no_null false t2 w2 s2 hs2p
              rw [h2] at hnn
              cases e with
              | launchFailed => simp
              | timeout => simp
              | blocked => simp
              | notFound => simp
              | nullPage => exact absurd rfl hnn
            | ok u2 =>
              dsimp only
              split
              · simp
              · split
                · simp
                · rcases OzonA.finishProduct_cases p2 with h | ⟨p, hp, hid⟩
                  · simp [h]
                  · exact Or.inr (Or.inr (Or.inr (Or.inr ⟨p, by simp [hp], hid⟩)))
          · rcases OzonA.finishProduct_cases p1 with h | ⟨p, hp, hid⟩
            · simp [h]
            · exact Or.inr (Or.inr (Or.inr (Or.inr ⟨p, by simp [hp], hid⟩)))

lemma OzonA.getProductDetails_wfStrict (lo : Bool) (t0 t1 t2 : Nat)
    (n0 w1 p1 w2 p2 : OzonA.Nav) (s : OzonA.State)
    (hwf : OzonA.wfStrict s) (hni : lo = true → n0.ok = true) :
    OzonA.wfStrict ((OzonA.getProductDetails lo t0 t1 t2 n0 w1 p1 w2 p2 s).2.1) := by
  have hc := OzonA.core_fields (OzonA.getProductDetails_coreEq lo t0 t1 t2 n0 w1 p1 w2 p2 s)
  have hi := OzonA.init_wfStrict lo t0 n0 s hwf hni
  constructor
  · rw [hc.1, hc.2.1]
    exact hi.1
  · rw [hc.2.1, hc.2.2.2]
    exact hi.2

lemma OzonA.getProductDetails_hpage (lo : Bool) (t0 t1 t2 : Nat)
    (n0 w1 p1 w2 p2 : OzonA.Nav) (s : OzonA.State)
    (hpage : s.isInitialized = true → s.page = true) :
    (OzonA.getProductDetails lo t0 t1 t2 n0 w1 p1 w2 p2 s).2.1.isInitialized = true →
      (OzonA.getProductDetails lo t0 t1 t2 n0 w1 p1 w2 p2 s).2.1.page = true := by
  have hc := OzonA.core_fields (OzonA.getProductDetails_coreEq lo t0 t1 t2 n0 w1 p1 w2 p2 s)
  rw [hc.2.2.1, hc.2.2.2]
  exact (OzonA.init_hpage lo t0 n0 s hpage).1

lemma OzonA.getProductDetails_page (lo : Bool) (t0 t1 t2 : Nat)
    (n0 w1 p1 w2 p2 : OzonA.Nav) (s : OzonA.State) :
    (OzonA.getProductDetails lo t0 t1 t2 n0 w1 p1 w2 p2 s).2.1.page =
      (s.page || (!s.isInitialized && lo)) := by
  have hc := OzonA.core_fields (OzonA.getProductDetails_coreEq lo t0 t1 t2 n0 w1 p1 w2 p2 s)
  rw [hc.2.2.1]
  exact (OzonA.init_fields lo t0 n0 s).2.2

lemma OzonA.wfStrict_alive_le (s : OzonA.State) (h : OzonA.wfStrict s) : s.alive ≤ 1 := by
  rw [h.1]
  split <;> omega

/-- Per-item invariant preservation through the variant-A batch loop, under
the hypothesis that no item's warm-up fails after a successful launch. -/
lemma OzonA.getProductsList_wfStrict (env : Nat → OzonA.ItemEnv) (ids : List String)
    (k : Nat) (s : OzonA.State) (hwf : OzonA.wfStrict s)
    (henv : ∀ k', (env k').launchOk = true → (env k').navInit.ok = true) :
    OzonA.wfStrict ((OzonA.getProductsList env ids k s).2.1) := by
  induction ids generalizing k s with
  | nil => exact hwf
  | cons id rest ih =>
    have hw1 : OzonA.wfStrict ((OzonA.getProductDetails (env k).launchOk (env k).t0
        (env k).t1 (env k).t2 (env k).navInit (env k).navW1 (env k).navP1
        (env k).navW2 (env k).navP2 s).2.1) :=
      OzonA.getProductDetails_wfStrict _ _ _ _ _ _ _ _ _ s hwf (henv k)
    simp only [OzonA.getProductsList]
    split
    · exact hw1
    · rcases hrec : OzonA.getProductsList env rest (k + 1)
          ((OzonA.getProductDetails (env k).launchOk (env k).t0 (env k).t1 (env k).t2
            (env k).navInit (env k).navW1 (env k).navP1 (env k).navW2 (env k).navP2 s).2.1)
        with ⟨rr, s2, d⟩
      have hw2 := ih (k + 1) _ hw1
      rw [hrec] at hw2
      cases rr <;> exact hw2

/-- The variant-A batch loop never throws, returns one entry per id in
order, and performs one pacing delay per item — provided the state is
coherent and, when the batch is non-empty, a page handle exists or the
first item's launch succeeds. -/
lemma OzonA.getProductsList_ok (env : Nat → OzonA.ItemEnv) (ids : List String)
    (k : Nat) (s : OzonA.State)
    (hpage : s.isInitialized = true → s.page = true)
    (hstart : ids ≠ [] → (s.page = true ∨ (env k).launchOk = true)) :
    ∃ l, (OzonA.getProductsList env ids k s).1 = .ok l ∧
      l.length = ids.length ∧
      (OzonA.getProductsList env ids k s).2.2 = ids.length ∧
      ∀ (i : Nat) (h1 : i < ids.length) (h2 : i < l.length),
        (∃ p, l.get ⟨i, h2⟩ = Ozon.PEntry.prod p) ∨
        ∃ e, l.get ⟨i, h2⟩ = Ozon.PEntry.failed (ids.get ⟨i, h1⟩) e := by
  induction ids generalizing k s with
  | nil =>
    refine ⟨[], rfl, rfl, rfl, ?_⟩
    intro i h1
    exact absurd h1 (Nat.not_lt_zero i)
  | cons id rest ih =>
    have hp1 : ((OzonA.getProductDetails (env k).launchOk (env k).t0 (env k).t1 (env k).t2
        (env k).navInit (env k).navW1 (env k).navP1 (env k).navW2 (env k).navP2 s).2.1).page
        = true := by
      rw [OzonA.getProductDetails_page]
      rcases hstart (by simp) with h | h
      · simp [h]
      · cases hi : s.isInitialized with
        | false => simp [h, hi]
        | true => simp [hpage hi]
    obtain ⟨l, hl, hlen, hd, hidx⟩ := ih (k + 1)
      ((OzonA.getProductDetails (env k).launchOk (env k).t0 (env k).t1 (env k).t2
        (env k).navInit (env k).navW1 (env k).navP1 (env k).navW2 (env k).navP2 s).2.1)
      (OzonA.getProductDetails_hpage _ _ _ _ _ _ _ _ _ s hpage)
      (fun _ => Or.inl hp1)
    rcases hrec : OzonA.getProductsList env rest (k + 1)
        ((OzonA.getProductDetails (env k).launchOk (env k).t0 (env k).t1 (env k).t2
          (env k).navInit (env k).navW1 (env k).navP1 (env k).navW2 (env k).navP2 s).2.1)
      with ⟨rr, s2, d⟩
    rw [hrec] at hl hd
    simp only [] at hl hd
    subst hl
    refine ⟨(match (OzonA.getProductDetails (env k).launchOk (env k).t0 (env k).t1 (env k).t2
        (env k).navInit (env k).navW1 (env k).navP1 (env k).navW2 (env k).navP2 s).1 with
        | .ok p => Ozon.PEntry.prod p
        | .error err => Ozon.PEntry.failed id err) :: l, ?_, ?_, ?_, ?_⟩
    · simp only [OzonA.getProductsList]
      rw [if_neg (by simp [hp1]), hrec]
    · simpa using hlen
    · simp only [OzonA.getProductsList]
      rw [if_neg (by simp [hp1]), hrec]
      simpa using hd
    · intro i h1 h2
      cases i with
      | zero =>
        rcases hE : (OzonA.getProductDetails (env k).launchOk (env k).t0 (env k).t1 (env k).t2
            (env k).navInit (env k).navW1 (env k).navP1 (env k).navW2 (env k).navP2 s).1
          with e | p
        · exact Or.inr ⟨e, by simp [hE]⟩
        · exact Or.inl ⟨p, by simp [hE]⟩
      | succ i =>
        have h1' : i < rest.length := by simpa using h1
        have h2' : i < l.length := by simpa using h2
        simpa using hidx i h1' h2'

/-! ## Variant B result lemmas -/

/-- Every outcome of the variant-B `getProductDetails`: a launch failure, a
timeout, a blocked error, or a product whose `id` is the pattern match of
its final URL (this variant has no not-found check). -/
lemma OzonB.getProductDetails_cases (lo : Bool) (nh np : OzonB.Nav) (s : OzonB.State) :
    (OzonB.getProductDetails lo nh np s).1 = .error .launchFailed ∨
    (OzonB.getProductDetails lo nh np s).1 = .error .timeout ∨
    (OzonB.getProductDetails lo nh np s).1 = .error .blocked ∨
    ∃ p, (OzonB.getProductDetails lo nh np s).1 = .ok p ∧
      p.id = matchDashNumStr p.url := by
  unfold OzonB.getProductDetails OzonB.loadPage OzonB.createBrowser
  cases lo with
  | false => simp
  | true =>
    cases hok : nh.ok with
    | false => simp [hok]
    | true =>
      cases hpok : np.ok with
      | false => simp [hok, hpok]
      | true =>
        cases hblk : Ozon.isBlockedTitleB np.title with
        | true => simp [hok, hpok, hblk]
        | false =>
          refine Or.inr (Or.inr (Or.inr
            ⟨⟨np.pdata, matchDashNumStr np.url, np.url⟩, ?_, rfl⟩))
          simp [hok, hpok, hblk]

/-- The value returned by the variant-B `getProductDetails` does not depend
on the incoming state (each call starts from a fresh browser). -/
lemma OzonB.getProductDetails_val (lo : Bool) (nh np : OzonB.Nav) (s s' : OzonB.State) :
    (OzonB.getProductDetails lo nh np s).1 = (OzonB.getProductDetails lo nh np s').1 := by
  unfold OzonB.getProductDetails OzonB.loadPage OzonB.createBrowser
  cases lo with
  | false => simp
  | true =>
    cases hok : nh.ok with
    | false => simp [hok]
    | true =>
      cases hpok : np.ok with
      | false => simp [hok, hpok]
      | true =>
        cases hblk : Ozon.isBlockedTitleB np.title with
        | true => simp [hok, hpok, hblk]
        | false => simp [hok, hpok, hblk]

lemma OzonB.getProductDetails_wf (lo : Bool) (nh np : OzonB.Nav) (s : OzonB.State)
    (hwf : OzonB.wf s) : OzonB.wf ((OzonB.getProductDetails lo nh np s).2) := by
  rw [OzonB.getProductDetails_state]
  rcases OzonB.close_loadPage_released lo nh s hwf with ⟨hb, ha⟩
  unfold OzonB.wf
  rw [hb, ha]
  rfl

lemma OzonB.getProductsList_wf (env : Nat → OzonB.ItemEnv) (ids : List String)
    (k : Nat) (s : OzonB.State) (hwf : OzonB.wf s) :
    OzonB.wf ((OzonB.getProductsList env ids k s).2.1) := by
  induction ids generalizing k s with
  | nil => exact hwf
  | cons id rest ih =>
    have hw1 : OzonB.wf ((OzonB.getProductDetails (env k).launchOk (env k).navHome
        (env k).navProd s).2) := OzonB.getProductDetails_wf _ _ _ s hwf
    simp only [OzonB.getProductsList]
    rcases hpd : OzonB.getProductDetails (env k).launchOk (env k).navHome (env k).navProd s
      with ⟨r1, s1⟩
    rw [hpd] at hw1
    cases r1 with
    | ok p =>
      dsimp only
      exact ih (k + 1) s1 hw1
    | error e =>
      dsimp only
      exact ih (k + 1) s1 hw1

/-- The variant-B batch loop: zero pacing delays, one entry per id in
order, and each entry is exactly the per-item outcome (which is independent
of the threaded state). -/
lemma OzonB.getProductsList_spec (env : Nat → OzonB.ItemEnv) (ids : List String)
    (k : Nat) (s : OzonB.State) :
    (OzonB.getProductsList env ids k s).2.2 = 0 ∧
    (OzonB.getProductsList env ids k s).1.length = ids.length ∧
    ∀ (i : Nat) (h1 : i < ids.length) (h2 : i < (OzonB.getProductsList env ids k s).1.length),
      (OzonB.getProductsList env ids k s).1.get ⟨i, h2⟩ =
        (match (OzonB.getProductDetails (env (k + i)).launchOk (env (k + i)).navHome
            (env (k + i)).navProd OzonB.newClient).1 with
         | .ok p => Ozon.PEntry.prod p
         | .error e => Ozon.PEntry.failed (ids.get ⟨i, h1⟩) e) := by
  induction ids generalizing k s with
  | nil =>
    refine ⟨rfl, rfl, ?_⟩
    intro i h1
    exact absurd h1 (Nat.not_lt_zero i)
  | cons id rest ih =>
    simp only [OzonB.getProductsList]
    rcases hpd : OzonB.getProductDetails (env k).launchOk (env k).navHome (env k).navProd s
      with ⟨r1, s1⟩
    have hval : r1 = (OzonB.getProductDetails (env k).launchOk (env k).navHome
        (env k).navProd OzonB.newClient).1 := by
      have h' := OzonB.getProductDetails_val (env k).launchOk (env k).navHome
        (env k).navProd s OzonB.newClient
      rw [hpd] at h'
      exact h'
    obtain ⟨ihd, ihl, ihe⟩ := ih (k + 1) s1
    cases r1 with
    | ok p =>
      dsimp only
      refine ⟨ihd, by simpa using ihl, ?_⟩
      intro i h1 h2
      cases i with
      | zero =>
        simp only [Nat.add_zero]
        rw [← hval]
        simp
      | succ i =>
        have h1' : i < rest.length := by simpa using h1
        have h2' : i < (OzonB.getProductsList env rest (k + 1) s1).1.length := by
          simpa using h2
        have harith : k + (i + 1) = k + 1 + i := by omega
        simp only [List.get_cons_succ, harith]
        exact ihe i h1' h2'
    | error e =>
      dsimp only
      refine ⟨ihd, by simpa using ihl, ?_⟩
      intro i h1 h2
      cases i with
      | zero =>
        simp only [Nat.add_zero]
        rw [← hval]
        simp
      | succ i =>
        have h1' : i < rest.length := by simpa using h1
        have h2' : i < (OzonB.getProductsList env rest (k + 1) s1).1.length := by
          simpa using h2
        have harith : k + (i + 1) = k + 1 + i := by omega
        simp only [List.get_cons_succ, harith]
        exact ihe i h1' h2'

/-! ## Persistent-block behaviour -/

/-- Variant A `getProductDetails` with the block signature present on both
the first navigation and the recovery retry fails with the blocked error. -/
lemma OzonA.getProductDetails_blockedPersist (lo : Bool) (t0 t1 t2 : Nat)
    (n0 w1 p1 w2 p2 : OzonA.Nav) (s : OzonA.State)
    (hpage : s.isInitialized = true → s.page = true) (hlo : lo = true)
    (hn0 : n0.ok = true) (hw1 : w1.ok = true)
    (hp1ok : p1.ok = true) (hcap1 : Ozon.hasCaptchaTitle p1.title = true)
    (hw2 : w2.ok = true) (hp2ok : p2.ok = true)
    (hcap2 : Ozon.hasCaptchaTitle p2.title = true) :
    (OzonA.getProductDetails lo t0 t1 t2 n0 w1 p1 w2 p2 s).1 = .error .blocked := by
  subst hlo
  unfold OzonA.getProductDetails
  rcases h0 : OzonA.init true t0 n0 s with ⟨r0, s1, m0⟩
  have hr0 : r0 = .ok () := by
    have h' := OzonA.init_ok true t0 n0 s rfl hn0 hpage
    rw [h0] at h'
    exact h'
  subst hr0
  have hs1p : s1.page = true := by
    have h' := (OzonA.init_hpage true t0 n0 s hpage).2
    rw [h0] at h'
    exact h' rfl
  rcases h1 : OzonA.visitHomepage false t1 w1 s1 with ⟨r1, s2, m1⟩
  have hr1 : r1 = .ok () := by
    have h' := OzonA.visitHomepage_ok false t1 w1 s1 hs1p hw1
    rw [h1] at h'
    exact h'
  subst hr1
  have hs2p : s2.page = true := by
    have h' := (OzonA.visitHomepage_core false t1 w1 s1).2.2.1
    rw [h1] at h'
    exact h'.trans hs1p
  rcases h2 : OzonA.visitHomepage false t2 w2 s2 with ⟨r2, s3, m2⟩
  have hr2 : r2 = .ok () := by
    have h' := OzonA.visitHomepage_ok false t2 w2 s2 hs2p hw2
    rw [h2] at h'
    exact h'
  subst hr2
  simp [h0, h1, h2, hs2p, hp1ok, hcap1, hp2ok, hcap2]

/-- Variant A `search` with the block signature present on the first search
navigation performs the forced re-warm and the retry navigation but never
re-checks the signature: it returns the extraction of the retry page,
raising no error, whatever the retry page shows. -/
lemma OzonA.search_blockedNoRaise (lo : Bool) (t0 t1 t2 : Nat)
    (n0 w1 s1n w2 s2n : OzonA.Nav) (limit : Nat) (s : OzonA.State)
    (hpage : s.isInitialized = true → s.page = true) (hlo : lo = true)
    (hn0 : n0.ok = true) (hw1 : w1.ok = true)
    (hs1ok : s1n.ok = true) (hcap1 : Ozon.hasCaptchaTitle s1n.title = true)
    (hw2 : w2.ok = true) (hs2ok : s2n.ok = true) :
    (OzonA.search lo t0 t1 t2 n0 w1 s1n w2 s2n limit s).1 =
      .ok (Ozon.searchEvalA limit s2n.cards) := by
  subst hlo
  unfold OzonA.search
  rcases h0 : OzonA.init true t0 n0 s with ⟨r0, s1, m0⟩
  have hr0 : r0 = .ok () := by
    have h' := OzonA.init_ok true t0 n0 s rfl hn0 hpage
    rw [h0] at h'
    exact h'
  subst hr0
  have hs1p : s1.page = true := by
    have h' := (OzonA.init_hpage true t0 n0 s hpage).2
    rw [h0] at h'
    exact h' rfl
  rcases h1 : OzonA.visitHomepage false t1 w1 s1 with ⟨r1, s2, m1⟩
  have hr1 : r1 = .ok () := by
    have h' := OzonA.visitHomepage_ok false t1 w1 s1 hs1p hw1
    rw [h1] at h'
    exact h'
  subst hr1
  have hs2p : s2.page = true := by
    have h' := (OzonA.visitHomepage_core false t1 w1 s1).2.2.1
    rw [h1] at h'
    exact h'.trans hs1p
  rcases h2 : OzonA.visitHomepage true t2 w2 { s2 with lastHomepageVisit := 0 }
    with ⟨r2, s3, m2⟩
  have hr2 : r2 = .ok () := by
    have h' := OzonA.visitHomepage_ok true t2 w2 { s2 with lastHomepageVisit := 0 } hs2p hw2
    rw [h2] at h'
    exact h'
  subst hr2
  simp only [h0, h1]
  rw [if_neg (by simp [hs2p]), if_neg (by simp [hs1ok]), if_pos (by simp [hcap1]), h2]
  dsimp only
  rw [if_neg (by simp [hs2ok])]

/-- Variant B `getProductDetails` throws the blocked error when the product
page shows the block signature. -/
lemma OzonB.getProductDetails_blocked (lo : Bool) (nh np : OzonB.Nav) (s : OzonB.State)
    (hlo : lo = true) (hok : nh.ok = true) (hpok : np.ok = true)
    (hblk : Ozon.isBlockedTitleB np.title = true) :
    (OzonB.getProductDetails lo nh np s).1 = .error .blocked := by
  subst hlo
  simp [OzonB.getProductDetails, OzonB.loadPage, OzonB.createBrowser, hok, hpok, hblk]

/-- C2 counterexample: a navigation timeout on the product page makes
`getProductDetails` throw a plain timeout error — neither a `BlockedError`
nor a `NotFoundError`, and no Product is returned — refuting the claimed
trichotomy as stated. -/
theorem claim_C2_counterexample :
    (OzonA.getProductDetails true 10 20 30 navAOk navAOk navAFail navAOk navAOk
      OzonA.newClient).1 = .error .timeout ∧
    Ozon.OzonError.timeout ≠ Ozon.OzonError.blocked ∧
    Ozon.OzonError.timeout ≠ Ozon.OzonError.notFound := by
  refine ⟨rfl, by decide, by decide⟩

/-- C2 (amended): on a coherent state, `getProductDetails` either throws —
a launch failure, a navigation `TimeoutError`, a `BlockedError`, or (in the
long-session variant only) a `NotFoundError` — or returns a Product whose
`id` is exactly the product-ID-pattern match of its final URL (hence
non-null whenever the pattern matches). -/
theorem claim_C2 :
    (∀ (lo : Bool) (t0 t1 t2 : Nat) (n0 w1 p1 w2 p2 : OzonA.Nav) (s : OzonA.State),
      (s.isInitialized = true → s.page = true) →
      (OzonA.getProductDetails lo t0 t1 t2 n0 w1 p1 w2 p2 s).1 = .error .launchFailed ∨
      (OzonA.getProductDetails lo t0 t1 t2 n0 w1 p1 w2 p2 s).1 = .error .timeout ∨
      (OzonA.getProductDetails lo t0 t1 t2 n0 w1 p1 w2 p2 s).1 = .error .blocked ∨
      (OzonA.getProductDetails lo t0 t1 t2 n0 w1 p1 w2 p2 s).1 = .error .notFound ∨
      ∃ p, (OzonA.getProductDetails lo t0 t1 t2 n0 w1 p1 w2 p2 s).1 = .ok p ∧
        p.id = matchDashNumStr p.url) ∧
    (∀ (lo : Bool) (nh np : OzonB.Nav) (s : OzonB.State),
      (OzonB.getProductDetails lo nh np s).1 = .error .launchFailed ∨
      (OzonB.getProductDetails lo nh np s).1 = .error .timeout ∨
      (OzonB.getProductDetails lo nh np s).1 = .error .blocked ∨
      ∃ p, (OzonB.getProductDetails lo nh np s).1 = .ok p ∧
        p.id = matchDashNumStr p.url) :=
  ⟨fun lo t0 t1 t2 n0 w1 p1 w2 p2 s hp =>
     OzonA.getProductDetails_result lo t0 t1 t2 n0 w1 p1 w2 p2 s hp,
   fun lo nh np s => OzonB.getProductDetails_cases lo nh np s⟩

/-- Witness for C2 at concrete successful navigations. -/
theorem claim_C2_witness :
    ((OzonA.getProductDetails true 10 20 30 navAOk navAOk navAOk navAOk navAOk
        OzonA.newClient).1 = .error .launchFailed ∨
     (OzonA.getProductDetails true 10 20 30 navAOk navAOk navAOk navAOk navAOk
        OzonA.newClient).1 = .error .timeout ∨
     (OzonA.getProductDetails true 10 20 30 navAOk navAOk navAOk navAOk navAOk
        OzonA.newClient).1 = .error .blocked ∨
     (OzonA.getProductDetails true 10 20 30 navAOk navAOk navAOk navAOk navAOk
        OzonA.newClient).1 = .error .notFound ∨
     ∃ p, (OzonA.getProductDetails true 10 20 30 navAOk navAOk navAOk navAOk navAOk
        OzonA.newClient).1 = .ok p ∧ p.id = matchDashNumStr p.url) ∧
    ((OzonB.getProductDetails true navBOk navBOk OzonB.newClient).1 = .error .launchFailed ∨
     (OzonB.getProductDetails true navBOk navBOk OzonB.newClient).1 = .error .timeout ∨
     (OzonB.getProductDetails true navBOk navBOk OzonB.newClient).1 = .error .blocked ∨
     ∃ p, (OzonB.getProductDetails true navBOk navBOk OzonB.newClient).1 = .ok p ∧
        p.id = matchDashNumStr p.url) :=
  ⟨claim_C2.1 true 10 20 30 navAOk navAOk navAOk navAOk navAOk OzonA.newClient (by decide),
   claim_C2.2 true navBOk navBOk OzonB.newClient⟩

/-- C3 counterexample: the fresh-session variant's batch loop performs zero
pacing delays even on a two-item batch — its loop body contains no wait —
refuting the claimed pacing delay between consecutive items. -/
theorem claim_C3_counterexample :
    (OzonB.getProductsList (fun _ => itemEnvBOk) ["100", "200"] 0 OzonB.newClient).2.2 = 0 ∧
    ¬(1 ≤ (OzonB.getProductsList (fun _ => itemEnvBOk) ["100", "200"] 0
        OzonB.newClient).2.2) := by
  refine ⟨rfl, by decide⟩

/-- C3 (amended): both batch loops return exactly one entry per id, in input
order, each entry being the item's product or its `{ id, error }`
placeholder.  The fresh-session variant never throws and performs no pacing
delay at all; the long-session variant performs one 2-second pacing delay
after every item (not merely between consecutive items) and never throws
provided the controller is coherent and — for a non-empty batch — a page
handle already exists or the first item's browser launch succeeds (a null
page handle at the pacing wait raises a TypeError). -/
theorem claim_C3 :
    (∀ (env : Nat → OzonB.ItemEnv) (ids : List String) (k : Nat) (s : OzonB.State),
      (OzonB.getProductsList env ids k s).2.2 = 0 ∧
      (OzonB.getProductsList env ids k s).1.length = ids.length ∧
      ∀ (i : Nat) (h1 : i < ids.length)
        (h2 : i < (OzonB.getProductsList env ids k s).1.length),
        (OzonB.getProductsList env ids k s).1.get ⟨i, h2⟩ =
          (match (OzonB.getProductDetails (env (k + i)).launchOk (env (k + i)).navHome
              (env (k + i)).navProd OzonB.newClient).1 with
           | .ok p => Ozon.PEntry.prod p
           | .error e => Ozon.PEntry.failed (ids.get ⟨i, h1⟩) e)) ∧
    (∀ (env : Nat → OzonA.ItemEnv) (ids : List String) (k : Nat) (s : OzonA.State),
      (s.isInitialized = true → s.page = true) →
      (ids ≠ [] → (s.page = true ∨ (env k).launchOk = true)) →
      ∃ l, (OzonA.getProductsList env ids k s).1 = .ok l ∧
        l.length = ids.length ∧
        (OzonA.getProductsList env ids k s).2.2 = ids.length ∧
        ∀ (i : Nat) (h1 : i < ids.length) (h2 : i < l.length),
          (∃ p, l.get ⟨i, h2⟩ = Ozon.PEntry.prod p) ∨
          ∃ e, l.get ⟨i, h2⟩ = Ozon.PEntry.failed (ids.get ⟨i, h1⟩) e) :=
  ⟨fun env ids k s => OzonB.getProductsList_spec env ids k s,
   fun env ids k s hp hs => OzonA.getProductsList_ok env ids k s hp hs⟩

/-- Witness for C3 on a concrete two-item batch in the long-session
variant. -/
theorem claim_C3_witness :
    ∃ l, (OzonA.getProductsList (fun _ => itemEnvAOk) ["100", "200"] 0
        OzonA.newClient).1 = .ok l ∧
      l.length = (["100", "200"] : List String).length ∧
      (OzonA.getProductsList (fun _ => itemEnvAOk) ["100", "200"] 0
        OzonA.newClient).2.2 = (["100", "200"] : List String).length ∧
      ∀ (i : Nat) (h1 : i < (["100", "200"] : List String).length) (h2 : i < l.length),
        (∃ p, l.get ⟨i, h2⟩ = Ozon.PEntry.prod p) ∨
        ∃ e, l.get ⟨i, h2⟩ =
          Ozon.PEntry.failed ((["100", "200"] : List String).get ⟨i, h1⟩) e :=
  claim_C3.2 (fun _ => itemEnvAOk) ["100", "200"] 0 OzonA.newClient (by decide)
    (fun _ => Or.inr rfl)

/-- C7 counterexample: with the block signature persisting through the
recovery retry, the long-session variant's `search` raises nothing — it
returns the (empty) extraction of the still-blocked page — refuting "in
policy A this raises an error to the caller (for search ...)". -/
theorem claim_C7_counterexample :
    (OzonA.search true 10 20 30 navAOk navAOk navABlocked navAOk navABlocked 20
      OzonA.newClient).1 = Except.ok [] ∧
    (OzonA.search true 10 20 30 navAOk navAOk navABlocked navAOk navABlocked 20
      OzonA.newClient).1 ≠ Except.error Ozon.OzonError.blocked := by
  refine ⟨rfl, fun h => nomatch h⟩

/-- C7 (amended): when the block signature is still present after the
recovery retry, the long-session variant's single-product fetch raises the
blocked error, but its `search` performs no second signature check and
proceeds to best-effort extraction of the (possibly still blocked) retry
page, raising nothing; the fresh-session variant, which performs no
recovery retry at all, degrades `search` to an empty list at the first
detection and raises the blocked error for single-product fetch. -/
theorem claim_C7 :
    (∀ (t0 t1 t2 : Nat) (n0 w1 p1 w2 p2 : OzonA.Nav) (s : OzonA.State),
       (s.isInitialized = true → s.page = true) →
       n0.ok = true → w1.ok = true → p1.ok = true →
       Ozon.hasCaptchaTitle p1.title = true → w2.ok = true → p2.ok = true →
       Ozon.hasCaptchaTitle p2.title = true →
       (OzonA.getProductDetails true t0 t1 t2 n0 w1 p1 w2 p2 s).1 = .error .blocked) ∧
    (∀ (t0 t1 t2 : Nat) (n0 w1 s1n w2 s2n : OzonA.Nav) (limit : Nat) (s : OzonA.State),
       (s.isInitialized = true → s.page = true) →
       n0.ok = true → w1.ok = true → s1n.ok = true →
       Ozon.hasCaptchaTitle s1n.title = true → w2.ok = true → s2n.ok = true →
       (OzonA.search true t0 t1 t2 n0 w1 s1n w2 s2n limit s).1 =
         .ok (Ozon.searchEvalA limit s2n.cards)) ∧
    (∀ (nav : OzonB.Nav) (limit : Nat) (s : OzonB.State),
       nav.ok = true → Ozon.isBlockedTitleB nav.title = true →
       (OzonB.search true nav limit s).1 = Except.ok []) ∧
    (∀ (nh np : OzonB.Nav) (s : OzonB.State),
       nh.ok = true → np.ok = true → Ozon.isBlockedTitleB np.title = true →
       (OzonB.getProductDetails true nh np s).1 = .error .blocked) := by
  refine ⟨?_, ?_, ?_, ?_⟩
  · intro t0 t1 t2 n0 w1 p1 w2 p2 s hp h1 h2 h3 h4 h5 h6 h7
    exact OzonA.getProductDetails_blockedPersist true t0 t1 t2 n0 w1 p1 w2 p2 s
      hp rfl h1 h2 h3 h4 h5 h6 h7
  · intro t0 t1 t2 n0 w1 s1n w2 s2n limit s hp h1 h2 h3 h4 h5 h6
    exact OzonA.search_blockedNoRaise true t0 t1 t2 n0 w1 s1n w2 s2n limit s
      hp rfl h1 h2 h3 h4 h5 h6
  · intro nav limit s hok hb
    simp [OzonB.search, OzonB.loadPage, OzonB.createBrowser, hok, hb]
  · intro nh np s hok hpok hblk
    exact OzonB.getProductDetails_blocked true nh np s rfl hok hpok hblk

/-- Witness for C7 at concrete blocked navigations. -/
theorem claim_C7_witness :
    (OzonA.getProductDetails true 10 20 30 navAOk navAOk navABlocked navAOk navABlocked
      OzonA.newClient).1 = .error .blocked ∧
    (OzonA.search true 10 20 30 navAOk navAOk navABlocked navAOk navABlocked 20
      OzonA.newClient).1 = .ok (Ozon.searchEvalA 20 navABlocked.cards) ∧
    (OzonB.search true navBBlocked 20 OzonB.newClient).1 = Except.ok [] ∧
    (OzonB.getProductDetails true navBOk navBBlocked OzonB.newClient).1 = .error .blocked :=
  ⟨claim_C7.1 10 20 30 navAOk navAOk navABlocked navAOk navABlocked OzonA.newClient
     (by decide) rfl rfl rfl (by decide) rfl rfl (by decide),
   claim_C7.2.1 10 20 30 navAOk navAOk navABlocked navAOk navABlocked 20 OzonA.newClient
     (by decide) rfl rfl rfl (by decide) rfl rfl,
   claim_C7.2.2.1 navBBlocked 20 OzonB.newClient rfl (by decide),
   claim_C7.2.2.2 navBOk navBBlocked OzonB.newClient rfl rfl (by decide)⟩

/-- C8: in both policies, `close()` is idempotent, tolerates a controller
that never created a browser, and afterwards the controller holds no
browser, context, or page.  (In the model `close` is a total state
transformer — the underlying release never throws — so the "never throws"
part is by construction.) -/
theorem claim_C8 :
    (∀ s : OzonB.State, OzonB.coherent s →
       OzonB.close (OzonB.close s) = OzonB.close s ∧ (OzonB.close s).browser = false ∧
       (OzonB.close s).context = false ∧ (OzonB.close s).page = false) ∧
    (∀ s : OzonA.State, OzonA.coherent s →
       OzonA.close (OzonA.close s) = OzonA.close s ∧ (OzonA.close s).browser = false ∧
       (OzonA.close s).context = false ∧ (OzonA.close s).page = false) ∧
    OzonB.close OzonB.newClient = OzonB.newClient ∧
    OzonA.close OzonA.newClient = OzonA.newClient := by
  refine ⟨?_, ?_, ?_, ?_⟩
  · intro s hc
    by_cases hb : s.browser = true
    · simp [OzonB.close, hb]
    · have hb' : s.browser = false := by simpa using hb
      obtain ⟨hco, hpg⟩ := hc hb'
      simp [OzonB.close, hb, hb', hco, hpg]
  · intro s hc
    by_cases hb : s.browser = true
    · simp [OzonA.close, hb]
    · have hb' : s.browser = false := by simpa using hb
      obtain ⟨hco, hpg⟩ := hc hb'
      simp [OzonA.close, hb, hb', hco, hpg]
  · rfl
  · rfl

/-- Witness for C8 at a live session of each variant. -/
theorem claim_C8_witness :
    (OzonB.close (OzonB.close ⟨true, true, true, 1⟩) =
       OzonB.close (⟨true, true, true, 1⟩ : OzonB.State) ∧
     (OzonB.close (⟨true, true, true, 1⟩ : OzonB.State)).browser = false ∧
     (OzonB.close (⟨true, true, true, 1⟩ : OzonB.State)).context = false ∧
     (OzonB.close (⟨true, true, true, 1⟩ : OzonB.State)).page = false) ∧
    (OzonA.close (OzonA.close ⟨true, true, true, true, 5, 1⟩) =
       OzonA.close (⟨true, true, true, true, 5, 1⟩ : OzonA.State) ∧
     (OzonA.close (⟨true, true, true, true, 5, 1⟩ : OzonA.State)).browser = false ∧
     (OzonA.close (⟨true, true, true, true, 5, 1⟩ : OzonA.State)).context = false ∧
     (OzonA.close (⟨true, true, true, true, 5, 1⟩ : OzonA.State)).page = false) :=
  ⟨claim_C8.1 ⟨true, true, true, 1⟩ (by intro h; exact absurd h (by decide)),
   claim_C8.2.1 ⟨true, true, true, true, 5, 1⟩ (by intro h; exact absurd h (by decide))⟩

lemma OzonB.wf_alive_le (s : OzonB.State) (h : OzonB.wf s) : s.alive ≤ 1 := by
  rw [h]
  split <;> omega

/-- C4 counterexample: a single `getProductsList` call on a fresh
long-session controller, whose first item's warm-up times out after a
successful launch and whose second item therefore re-runs `init`, ends with
two live browser processes — the first one is never closed. -/
theorem claim_C4_counterexample :
    (OzonA.getProductsList envLeak ["100", "200"] 0 OzonA.newClient).2.1.alive = 2 ∧
    ¬((OzonA.getProductsList envLeak ["100", "200"] 0 OzonA.newClient).2.1.alive ≤ 1) := by
  refine ⟨rfl, by decide⟩

/-- C4 (amended): after any public operation, at most one browser process is
alive per controller — unconditionally in the fresh-session policy; in the
long-session policy provided the operation does not start from (or, for the
batch loop, internally create) a half-initialized session, i.e. the state
satisfies `browser = isInitialized` and no batch item's warm-up fails after
a successful launch.  A warm-up failure during `init` leaves such a
half-initialized session, and the next `init` launches a second process
without closing the first. -/
theorem claim_C4 :
    (∀ (lo : Bool) (nav nh np : OzonB.Nav) (limit : Nat) (s : OzonB.State), OzonB.wf s →
       (OzonB.search lo nav limit s).2.alive ≤ 1 ∧
       (OzonB.getProductDetails lo nh np s).2.alive ≤ 1 ∧
       (OzonB.getCategories lo nav s).2.alive ≤ 1) ∧
    (∀ (env : Nat → OzonB.ItemEnv) (ids : List String) (k : Nat) (s : OzonB.State),
       OzonB.wf s → (OzonB.getProductsList env ids k s).2.1.alive ≤ 1) ∧
    (∀ (city query : String) (s : OzonB.State), OzonB.wf s →
       (OzonB.setLocation city s).2.alive ≤ 1 ∧ (OzonB.getFilters query s).2.alive ≤ 1) ∧
    (∀ (lo : Bool) (t0 t1 t2 : Nat) (n0 w1 x1 w2 x2 : OzonA.Nav) (limit : Nat)
       (s : OzonA.State), OzonA.wfStrict s →
       (OzonA.search lo t0 t1 t2 n0 w1 x1 w2 x2 limit s).2.1.alive ≤ 1 ∧
       (OzonA.getProductDetails lo t0 t1 t2 n0 w1 x1 w2 x2 s).2.1.alive ≤ 1) ∧
    (∀ (lo : Bool) (t0 : Nat) (n0 nv : OzonA.Nav) (city : String) (uiOk : Bool)
       (avail : List String) (s : OzonA.State), OzonA.wfStrict s →
       (OzonA.getCategories lo t0 n0 nv s).2.1.alive ≤ 1 ∧
       (OzonA.setLocation lo t0 n0 nv city uiOk s).2.1.alive ≤ 1 ∧
       (OzonA.getFilters lo t0 n0 nv avail s).2.1.alive ≤ 1) ∧
    (∀ (env : Nat → OzonA.ItemEnv) (ids : List String) (k : Nat) (s : OzonA.State),
       OzonA.wfStrict s → (∀ k', (env k').launchOk = true → (env k').navInit.ok = true) →
       (OzonA.getProductsList env ids k s).2.1.alive ≤ 1) := by
  refine ⟨?_, ?_, ?_, ?_, ?_, ?_⟩
  · intro lo nav nh np limit s hwf
    refine ⟨?_, ?_, ?_⟩
    · rw [OzonB.search_state, (OzonB.close_loadPage_released lo nav s hwf).2]
      omega
    · rw [OzonB.getProductDetails_state, (OzonB.close_loadPage_released lo nh s hwf).2]
      omega
    · rw [OzonB.getCategories_state, (OzonB.close_loadPage_released lo nav s hwf).2]
      omega
  · intro env ids k s hwf
    exact OzonB.wf_alive_le _ (OzonB.getProductsList_wf env ids k s hwf)
  · intro city query s hwf
    exact ⟨OzonB.wf_alive_le s hwf, OzonB.wf_alive_le s hwf⟩
  · intro lo t0 t1 t2 n0 w1 x1 w2 x2 limit s hwf
    constructor
    · rw [(OzonA.core_fields (OzonA.search_coreEq lo t0 t1 t2 n0 w1 x1 w2 x2 limit s)).1]
      exact OzonA.init_alive_le lo t0 n0 s hwf
    · rw [(OzonA.core_fields (OzonA.getProductDetails_coreEq lo t0 t1 t2 n0 w1 x1 w2 x2 s)).1]
      exact OzonA.init_alive_le lo t0 n0 s hwf
  · intro lo t0 n0 nv city uiOk avail s hwf
    obtain ⟨h1, h2, h3⟩ := OzonA.simpleOps_state lo t0 n0 nv city uiOk avail s
    rw [h1, h2, h3]
    exact ⟨OzonA.init_alive_le lo t0 n0 s hwf, OzonA.init_alive_le lo t0 n0 s hwf,
      OzonA.init_alive_le lo t0 n0 s hwf⟩
  · intro env ids k s hwf henv
    exact OzonA.wfStrict_alive_le _ (OzonA.getProductsList_wfStrict env ids k s hwf henv)

/-- Witness for C4 at fresh controllers and benign oracles. -/
theorem claim_C4_witness :
    ((OzonB.search true navBOk 20 OzonB.newClient).2.alive ≤ 1 ∧
     (OzonB.getProductDetails true navBOk navBOk OzonB.newClient).2.alive ≤ 1 ∧
     (OzonB.getCategories true navBOk OzonB.newClient).2.alive ≤ 1) ∧
    (OzonB.getProductsList (fun _ => itemEnvBOk) ["100"] 0 OzonB.newClient).2.1.alive ≤ 1 ∧
    ((OzonB.setLocation "Москва" OzonB.newClient).2.alive ≤ 1 ∧
     (OzonB.getFilters "чайник" OzonB.newClient).2.alive ≤ 1) ∧
    ((OzonA.search true 10 20 30 navAOk navAOk navAOk navAOk navAOk 20
        OzonA.newClient).2.1.alive ≤ 1 ∧
     (OzonA.getProductDetails true 10 20 30 navAOk navAOk navAOk navAOk navAOk
        OzonA.newClient).2.1.alive ≤ 1) ∧
    ((OzonA.getCategories true 10 navAOk navAOk OzonA.newClient).2.1.alive ≤ 1 ∧
     (OzonA.setLocation true 10 navAOk navAOk "Москва" true OzonA.newClient).2.1.alive ≤ 1 ∧
     (OzonA.getFilters true 10 navAOk navAOk [] OzonA.newClient).2.1.alive ≤ 1) ∧
    (OzonA.getProductsList (fun _ => itemEnvAOk) ["100"] 0 OzonA.newClient).2.1.alive ≤ 1 :=
  ⟨claim_C4.1 true navBOk navBOk navBOk 20 OzonB.newClient rfl,
   claim_C4.2.1 (fun _ => itemEnvBOk) ["100"] 0 OzonB.newClient rfl,
   claim_C4.2.2.1 "Москва" "чайник" OzonB.newClient rfl,
   claim_C4.2.2.2.1 true 10 20 30 navAOk navAOk navAOk navAOk navAOk 20
     OzonA.newClient ⟨rfl, rfl⟩,
   claim_C4.2.2.2.2.1 true 10 navAOk navAOk "Москва" true [] OzonA.newClient ⟨rfl, rfl⟩,
   claim_C4.2.2.2.2.2 (fun _ => itemEnvAOk) ["100"] 0 OzonA.newClient ⟨rfl, rfl⟩
     (fun _ _ => rfl)⟩

/-- C6: in the long-session policy, two `search` calls whose warm-ups fall
within the freshness window perform exactly one warm-up navigation in total
(the first call's `init` warm-up; both in-`search` `visitHomepage` calls are
skipped); a second call across the window boundary triggers exactly one
re-warm; and a forced warm-up (`visitHomepage(true)`, used after block
detection) navigates regardless of the freshness window. -/
theorem claim_C6 (t0 t1 t2 : Nat) (navH navS navH2 navS2 : OzonA.Nav)
    (limit limit2 : Nat)
    (ht0 : 0 < t0) (hwin1 : t1 - t0 < OzonA.homepageVisitInterval)
    (hHok : navH.ok = true) (hSok : navS.ok = true)
    (hScap : Ozon.hasCaptchaTitle navS.title = false)
    (hH2ok : navH2.ok = true) (hS2ok : navS2.ok = true)
    (hS2cap : Ozon.hasCaptchaTitle navS2.title = false) :
    (OzonA.search true t0 t1 0 navH navH navS navH navS limit OzonA.newClient).2.2 = 1 ∧
    (OzonA.search true t0 t1 0 navH navH navS navH navS limit
      OzonA.newClient).2.1.lastHomepageVisit = t0 ∧
    (t2 - t0 < OzonA.homepageVisitInterval →
      (OzonA.search true t2 t2 t2 navH2 navH2 navS2 navH2 navS2 limit2
        (OzonA.search true t0 t1 0 navH navH navS navH navS limit
          OzonA.newClient).2.1).2.2 = 0) ∧
    (OzonA.homepageVisitInterval ≤ t2 - t0 →
      (OzonA.search true t2 t2 t2 navH2 navH2 navS2 navH2 navS2 limit2
        (OzonA.search true t0 t1 0 navH navH navS navH navS limit
          OzonA.newClient).2.1).2.2 = 1) ∧
    (∀ (now : Nat) (nv : OzonA.Nav) (st : OzonA.State), st.page = true → nv.ok = true →
      (OzonA.visitHomepage true now nv st).2.2 = 1) := by
  have hinit : OzonA.init true t0 navH OzonA.newClient =
      (.ok (), ⟨true, true, true, true, t0, 1⟩, 1) := by
    unfold OzonA.init OzonA.newClient OzonA.visitHomepage
    simp [hHok]
  have hs1 : OzonA.search true t0 t1 0 navH navH navS navH navS limit OzonA.newClient =
      (.ok (Ozon.searchEvalA limit navS.cards), ⟨true, true, true, true, t0, 1⟩, 1) := by
    unfold OzonA.search
    rw [hinit]
    unfold OzonA.visitHomepage
    simp [hwin1, ht0, hSok, hScap]
  refine ⟨by rw [hs1], by rw [hs1], ?_, ?_, ?_⟩
  · intro hw
    rw [hs1]
    unfold OzonA.search OzonA.init OzonA.visitHomepage
    simp [hw, ht0, hS2ok, hS2cap]
  · intro hge
    have hnl : ¬(t2 - t0 < OzonA.homepageVisitInterval) := Nat.not_lt.mpr hge
    rw [hs1]
    unfold OzonA.search OzonA.init OzonA.visitHomepage
    simp [hnl, hH2ok, hS2ok, hS2cap]
  · intro now nv st hp hok2
    unfold OzonA.visitHomepage
    simp [hp, hok2]

/-- Witness for C6 at concrete times inside the five-minute window. -/
theorem claim_C6_witness :
    (OzonA.search true 10 20 0 navAOk navAOk navAOk navAOk navAOk 20
      OzonA.newClient).2.2 = 1 ∧
    (OzonA.search true 10 20 0 navAOk navAOk navAOk navAOk navAOk 20
      OzonA.newClient).2.1.lastHomepageVisit = 10 ∧
    (30 - 10 < OzonA.homepageVisitInterval →
      (OzonA.search true 30 30 30 navAOk navAOk navAOk navAOk navAOk 20
        (OzonA.search true 10 20 0 navAOk navAOk navAOk navAOk navAOk 20
          OzonA.newClient).2.1).2.2 = 0) ∧
    (OzonA.homepageVisitInterval ≤ 30 - 10 →
      (OzonA.search true 30 30 30 navAOk navAOk navAOk navAOk navAOk 20
        (OzonA.search true 10 20 0 navAOk navAOk navAOk navAOk navAOk 20
          OzonA.newClient).2.1).2.2 = 1) ∧
    (∀ (now : Nat) (nv : OzonA.Nav) (st : OzonA.State), st.page = true → nv.ok = true →
      (OzonA.visitHomepage true now nv st).2.2 = 1) :=
  claim_C6 10 20 30 navAOk navAOk navAOk navAOk 20 20 (by decide) (by decide)
    rfl rfl (by decide) rfl rfl (by decide)
